import Mathlib

/-!
Verification of `torchrl/data/datasets/d4rl.py` (`D4RLExperienceReplay`).

The Step Table is embedded as a structure of columns (lists indexed by the
row number).  Observation and action rows are integer vectors (`List Int`);
`reward` is an integer per row; the flag columns are booleans.  Optional
columns (`truncated`, `info`, the metadata block) are `Option`-valued.
Tensor dtype coercions are modelled as the identity (they do not move data
between rows).  All definitions are executable so that concrete tables can
be evaluated with `decide`.
-/

namespace D4RL

/-- A row of an observation column: an integer vector. -/
abbrev Obs := List Int

/-- The `next` sub-record of the Step Table (`dataset["next"]`). -/
structure NextBlock where
  observation : List Obs
  reward : List Int
  done : List Bool
  terminated : List Bool
  truncated : Option (List Bool)
  info : Option (List Int)
  deriving Repr, DecidableEq

/-- The Step Table: one column per canonical field, rows indexed by position. -/
structure StepTable where
  observation : List Obs
  action : List Obs
  reward : List Int
  done : List Bool
  terminated : List Bool
  truncated : Option (List Bool)
  info : Option (List Int)
  next : NextBlock
  deriving Repr, DecidableEq

/-- Overwrite index 0 of a list (the write `xs[0] = v`); no-op on `[]`.
The `IndexError` the source raises on a zero-row column is modelled
separately by `shiftFieldChecked` and the checked pipelines below. -/
def setIdx0 {α : Type} (v : α) (xs : List α) : List α :=
  match xs with
  | [] => []
  | _ :: t => v :: t

/-- One field of `_shift_reward_done`: models
`x = x.clone(); x[1:] = x[:-1].clone(); x[0] = zero`.
The slice write `x[1:] = src` replaces every position from 1 on with `src`,
where `src` is the snapshot `x[:-1].clone()` of the original (pre-write)
values; then position 0 is reset to the identity value. -/
def shiftField {α : Type} (zero : α) (xs : List α) : List α :=
  setIdx0 zero (xs.take 1 ++ xs.dropLast)

/-- Embeds `D4RLExperienceReplay._shift_reward_done` (d4rl.py lines 515-524):
shifts the top-level `reward`, `done`, `terminated` and `truncated`
(the latter only when present) columns; the `next` block is untouched
because the loop only looks at top-level keys. -/
def shiftRewardDone (dataset : StepTable) : StepTable :=
  { dataset with
    reward := shiftField 0 dataset.reward
    done := shiftField false dataset.done
    terminated := shiftField false dataset.terminated
    truncated := dataset.truncated.map (shiftField false) }

/-- Raw data of the flat-sequence provenance (`env.get_dataset()` or a
directly downloaded hdf5 file), after field names are read off the file:
`observations`, `actions`, `rewards`, `terminals`, optional `timeouts`,
optional `infos`, optional `metadata` block (opaque, modelled as `Int`). -/
structure RawEnvData where
  observations : List Obs
  actions : List Obs
  rewards : List Int
  terminals : List Bool
  timeouts : Option (List Bool)
  infos : Option (List Int)
  metadata : Option Int
  deriving Repr, DecidableEq

/-- Raw data of the library-computed provenance (`d4rl.qlearning_dataset`):
ships a pre-built `next_observations` column. -/
structure RawQlearningData where
  observations : List Obs
  actions : List Obs
  next_observations : List Obs
  rewards : List Int
  terminals : List Bool
  timeouts : Option (List Bool)
  metadata : Option Int
  deriving Repr, DecidableEq

/-- The `done` derivation shared by both construction paths
(d4rl.py lines 397-401 and 469-475):
`done = terminated | truncated` when `use_truncated_as_done` (with
`dataset.get("truncated", False)` broadcasting to `terminated` when the
column is absent), else `done = terminated`. -/
def computeDone (useTruncatedAsDone : Bool) (terminated : List Bool)
    (truncated : Option (List Bool)) : List Bool :=
  if useTruncatedAsDone then
    match truncated with
    | some tr => List.zipWith (fun a b => a || b) terminated tr
    | none => terminated
  else
    terminated

/-- Embeds `D4RLExperienceReplay._process_data_from_env`
(d4rl.py lines 454-513), the derived next-state mode.  Returns the
processed Step Table together with the metadata side channel
(`none` models `self.metadata = {}`).  Steps mirrored from the source:
metadata extraction; renames; `done` derivation; dtype casts (identity
here); `dataset = dataset[:-1].set("next", dataset.select("observation",
"info")[1:])`; `dataset["next"].update(dataset.select("reward", "done",
"terminated", "truncated"))`; `clone`; `_shift_reward_done`. -/
def processDataFromEnv (useTruncatedAsDone : Bool) (raw : RawEnvData) :
    StepTable × Option Int :=
  let observation := raw.observations
  let action := raw.actions
  let reward := raw.rewards
  let terminated := raw.terminals
  let truncated := raw.timeouts
  let info := raw.infos
  let done := computeDone useTruncatedAsDone terminated truncated
  let nxt : NextBlock :=
    { observation := observation.drop 1
      reward := reward.dropLast
      done := done.dropLast
      terminated := terminated.dropLast
      truncated := truncated.map List.dropLast
      info := info.map (List.drop 1) }
  let table : StepTable :=
    { observation := observation.dropLast
      action := action.dropLast
      reward := reward.dropLast
      done := done.dropLast
      terminated := terminated.dropLast
      truncated := truncated.map List.dropLast
      info := info.map List.dropLast
      next := nxt }
  (shiftRewardDone table, raw.metadata)

/-- Embeds the data-processing part of `D4RLExperienceReplay._get_dataset_direct`
(d4rl.py lines 361-427), the pre-built next-state mode: metadata extraction;
renames (`next_observations` becomes `next.observation`); `done` derivation;
dtype casts (identity here); `dataset["next"].update(dataset.select("reward",
"done", "terminated", "truncated"))`; `clone`; `_shift_reward_done`.
No row is dropped. -/
def getDatasetDirect (useTruncatedAsDone : Bool) (raw : RawQlearningData) :
    StepTable × Option Int :=
  let observation := raw.observations
  let action := raw.actions
  let reward := raw.rewards
  let terminated := raw.terminals
  let truncated := raw.timeouts
  let done := computeDone useTruncatedAsDone terminated truncated
  let nxt : NextBlock :=
    { observation := raw.next_observations
      reward := reward
      done := done
      terminated := terminated
      truncated := truncated
      info := none }
  let table : StepTable :=
    { observation := observation
      action := action
      reward := reward
      done := done
      terminated := terminated
      truncated := truncated
      info := none
      next := nxt }
  (shiftRewardDone table, raw.metadata)

/-- The all-zero observation of the same shape as `o`
(the broadcast write `= 0`). -/
def zeroLike (o : Obs) : Obs := o.map (fun _ => 0)

/-- Embeds d4rl.py line 327:
`dataset["next", "observation"][dataset["next", "done"].squeeze()] = 0`
(zero the next observation of every row whose `next.done` is set). -/
def zeroDoneNextObs (dataset : StepTable) : StepTable :=
  { dataset with
    next := { dataset.next with
      observation := List.zipWith
        (fun dn o => if dn then zeroLike o else o)
        dataset.next.done dataset.next.observation } }

/-- The finished (unsplit) table of the flat-sequence provenance paths
(`from_env=True` and `direct_download=True` both run
`_process_data_from_env`), after the terminal zeroing of `__init__`. -/
def finishedFromEnv (useTruncatedAsDone : Bool) (raw : RawEnvData) : StepTable :=
  zeroDoneNextObs (processDataFromEnv useTruncatedAsDone raw).1

/-- The finished (unsplit) table of the library-computed provenance path
(`from_env=False`, `direct_download=False`), after the terminal zeroing
of `__init__`. -/
def finishedDirect (useTruncatedAsDone : Bool) (raw : RawQlearningData) : StepTable :=
  zeroDoneNextObs (getDatasetDirect useTruncatedAsDone raw).1

/-- Length check for an optional column: satisfied trivially when the
column is absent, otherwise the column must have `n` rows. -/
def optLenB {α : Type} (o : Option (List α)) (n : Nat) : Bool :=
  match o with
  | none => true
  | some xs => xs.length == n

/-- Well-formedness of raw flat-sequence data: every column has the same
number of rows. -/
def RawEnvData.wfB (raw : RawEnvData) : Bool :=
  (raw.actions.length == raw.observations.length) &&
  (raw.rewards.length == raw.observations.length) &&
  (raw.terminals.length == raw.observations.length) &&
  optLenB raw.timeouts raw.observations.length &&
  optLenB raw.infos raw.observations.length

/-- Well-formedness of raw library-computed data: every column has the same
number of rows. -/
def RawQlearningData.wfB (raw : RawQlearningData) : Bool :=
  (raw.actions.length == raw.observations.length) &&
  (raw.next_observations.length == raw.observations.length) &&
  (raw.rewards.length == raw.observations.length) &&
  (raw.terminals.length == raw.observations.length) &&
  optLenB raw.timeouts raw.observations.length

/-- Modelled from the spec: `split_trajectories`
(`torchrl.collectors.utils`, not under `src/`) scans the `next.done`
column for episode boundaries — a `true` marks the last row of an
episode — and groups contiguous runs between boundaries, together with
the trailing run at the very end of the table, into episodes.  This
helper returns those runs of the `next.done` column; `acc` carries the
rows of the current unfinished run in reverse order. -/
def splitRunsAux : List Bool → List Bool → List (List Bool)
  | [], acc => if acc.isEmpty then [] else [acc.reverse]
  | true :: rest, acc => (acc.reverse ++ [true]) :: splitRunsAux rest []
  | false :: rest, acc => splitRunsAux rest (false :: acc)

/-- Modelled from the spec: the per-episode runs of the `next.done` column
produced by trajectory splitting (an empty table produces zero episodes). -/
def splitRuns (nextDone : List Bool) : List (List Bool) :=
  splitRunsAux nextDone []

/-- Pad a list on the right with `pad` up to length `m`. -/
def padTo {α : Type} (pad : α) (m : Nat) (xs : List α) : List α :=
  xs ++ List.replicate (m - xs.length) pad

/-- Embeds d4rl.py line 331, `dataset["next", "done"][:, -1] = True`,
restricted to one episode row: overwrite the last (padded) position
with `true`. -/
def setLastTrue (ep : List Bool) : List Bool :=
  match ep with
  | [] => []
  | _ :: _ => ep.dropLast ++ [true]

/-- The `next.done` column after trajectory splitting (modelled from the
spec, see `splitRuns`: episodes are padded with zero-valued rows to the
maximum observed episode length) followed by d4rl.py line 331, which
forces `next.done = true` at the final padded column of every episode. -/
def splitNextDone (nextDone : List Bool) : List (List Bool) :=
  let runs := splitRuns nextDone
  let maxLen := (runs.map List.length).foldr Nat.max 0
  (runs.map (padTo false maxLen)).map setLastTrue

/-- Embeds the class attribute `D4RLExperienceReplay.D4RL_DATASETS`
(d4rl.py lines 102-282): the known archive-source table mapping dataset
names to their download URLs. -/
def D4RL_DATASETS : List (String × String) := [
  ("maze2d-open-v0",
    "http://rail.eecs.berkeley.edu/datasets/offline_rl/maze2d/maze2d-open-sparse.hdf5"),
  ("maze2d-umaze-v1",
    "http://rail.eecs.berkeley.edu/datasets/offline_rl/maze2d/maze2d-umaze-sparse-v1.hdf5"),
  ("maze2d-medium-v1",
    "http://rail.eecs.berkeley.edu/datasets/offline_rl/maze2d/maze2d-medium-sparse-v1.hdf5"),
  ("maze2d-large-v1",
    "http://rail.eecs.berkeley.edu/datasets/offline_rl/maze2d/maze2d-large-sparse-v1.hdf5"),
  ("maze2d-eval-umaze-v1",
    "http://rail.eecs.berkeley.edu/datasets/offline_rl/maze2d/maze2d-eval-umaze-sparse-v1.hdf5"),
  ("maze2d-eval-medium-v1",
    "http://rail.eecs.berkeley.edu/datasets/offline_rl/maze2d/maze2d-eval-medium-sparse-v1.hdf5"),
  ("maze2d-eval-large-v1",
    "http://rail.eecs.berkeley.edu/datasets/offline_rl/maze2d/maze2d-eval-large-sparse-v1.hdf5"),
  ("maze2d-open-dense-v0",
    "http://rail.eecs.berkeley.edu/datasets/offline_rl/maze2d/maze2d-open-dense.hdf5"),
  ("maze2d-umaze-dense-v1",
    "http://rail.eecs.berkeley.edu/datasets/offline_rl/maze2d/maze2d-umaze-dense-v1.hdf5"),
  ("maze2d-medium-dense-v1",
    "http://rail.eecs.berkeley.edu/datasets/offline_rl/maze2d/maze2d-medium-dense-v1.hdf5"),
  ("maze2d-large-dense-v1",
    "http://rail.eecs.berkeley.edu/datasets/offline_rl/maze2d/maze2d-large-dense-v1.hdf5"),
  ("maze2d-eval-umaze-dense-v1",
    "http://rail.eecs.berkeley.edu/datasets/offline_rl/maze2d/maze2d-eval-umaze-dense-v1.hdf5"),
  ("maze2d-eval-medium-dense-v1",
    "http://rail.eecs.berkeley.edu/datasets/offline_rl/maze2d/maze2d-eval-medium-dense-v1.hdf5"),
  ("maze2d-eval-large-dense-v1",
    "http://rail.eecs.berkeley.edu/datasets/offline_rl/maze2d/maze2d-eval-large-dense-v1.hdf5"),
  ("minigrid-fourrooms-v0",
    "http://rail.eecs.berkeley.edu/datasets/offline_rl/minigrid/minigrid4rooms.hdf5"),
  ("minigrid-fourrooms-random-v0",
    "http://rail.eecs.berkeley.edu/datasets/offline_rl/minigrid/minigrid4rooms_random.hdf5"),
  ("pen-human-v0",
    "http://rail.eecs.berkeley.edu/datasets/offline_rl/hand_dapg/pen-v0_demos_clipped.hdf5"),
  ("pen-cloned-v0",
    "http://rail.eecs.berkeley.edu/datasets/offline_rl/hand_dapg/pen-demos-v0-bc-combined.hdf5"),
  ("pen-expert-v0",
    "http://rail.eecs.berkeley.edu/datasets/offline_rl/hand_dapg/pen-v0_expert_clipped.hdf5"),
  ("hammer-human-v0",
    "http://rail.eecs.berkeley.edu/datasets/offline_rl/hand_dapg/hammer-v0_demos_clipped.hdf5"),
  ("hammer-cloned-v0",
    "http://rail.eecs.berkeley.edu/datasets/offline_rl/hand_dapg/hammer-demos-v0-bc-combined.hdf5"),
  ("hammer-expert-v0",
    "http://rail.eecs.berkeley.edu/datasets/offline_rl/hand_dapg/hammer-v0_expert_clipped.hdf5"),
  ("relocate-human-v0",
    "http://rail.eecs.berkeley.edu/datasets/offline_rl/hand_dapg/relocate-v0_demos_clipped.hdf5"),
  ("relocate-cloned-v0",
    "http://rail.eecs.berkeley.edu/datasets/offline_rl/hand_dapg/relocate-demos-v0-bc-combined.hdf5"),
  ("relocate-expert-v0",
    "http://rail.eecs.berkeley.edu/datasets/offline_rl/hand_dapg/relocate-v0_expert_clipped.hdf5"),
  ("door-human-v0",
    "http://rail.eecs.berkeley.edu/datasets/offline_rl/hand_dapg/door-v0_demos_clipped.hdf5"),
  ("door-cloned-v0",
    "http://rail.eecs.berkeley.edu/datasets/offline_rl/hand_dapg/door-demos-v0-bc-combined.hdf5"),
  ("door-expert-v0",
    "http://rail.eecs.berkeley.edu/datasets/offline_rl/hand_dapg/door-v0_expert_clipped.hdf5"),
  ("halfcheetah-random-v0",
    "http://rail.eecs.berkeley.edu/datasets/offline_rl/gym_mujoco/halfcheetah_random.hdf5"),
  ("halfcheetah-medium-v0",
    "http://rail.eecs.berkeley.edu/datasets/offline_rl/gym_mujoco/halfcheetah_medium.hdf5"),
  ("halfcheetah-expert-v0",
    "http://rail.eecs.berkeley.edu/datasets/offline_rl/gym_mujoco/halfcheetah_expert.hdf5"),
  ("halfcheetah-medium-replay-v0",
    "http://rail.eecs.berkeley.edu/datasets/offline_rl/gym_mujoco/halfcheetah_mixed.hdf5"),
  ("halfcheetah-medium-expert-v0",
    "http://rail.eecs.berkeley.edu/datasets/offline_rl/gym_mujoco/halfcheetah_medium_expert.hdf5"),
  ("walker2d-random-v0",
    "http://rail.eecs.berkeley.edu/datasets/offline_rl/gym_mujoco/walker2d_random.hdf5"),
  ("walker2d-medium-v0",
    "http://rail.eecs.berkeley.edu/datasets/offline_rl/gym_mujoco/walker2d_medium.hdf5"),
  ("walker2d-expert-v0",
    "http://rail.eecs.berkeley.edu/datasets/offline_rl/gym_mujoco/walker2d_expert.hdf5"),
  ("walker2d-medium-replay-v0",
    "http://rail.eecs.berkeley.edu/datasets/offline_rl/gym_mujoco/walker_mixed.hdf5"),
  ("walker2d-medium-expert-v0",
    "http://rail.eecs.berkeley.edu/datasets/offline_rl/gym_mujoco/walker2d_medium_expert.hdf5"),
  ("hopper-random-v0",
    "http://rail.eecs.berkeley.edu/datasets/offline_rl/gym_mujoco/hopper_random.hdf5"),
  ("hopper-medium-v0",
    "http://rail.eecs.berkeley.edu/datasets/offline_rl/gym_mujoco/hopper_medium.hdf5"),
  ("hopper-expert-v0",
    "http://rail.eecs.berkeley.edu/datasets/offline_rl/gym_mujoco/hopper_expert.hdf5"),
  ("hopper-medium-replay-v0",
    "http://rail.eecs.berkeley.edu/datasets/offline_rl/gym_mujoco/hopper_mixed.hdf5"),
  ("hopper-medium-expert-v0",
    "http://rail.eecs.berkeley.edu/datasets/offline_rl/gym_mujoco/hopper_medium_expert.hdf5"),
  ("ant-random-v0",
    "http://rail.eecs.berkeley.edu/datasets/offline_rl/gym_mujoco/ant_random.hdf5"),
  ("ant-medium-v0",
    "http://rail.eecs.berkeley.edu/datasets/offline_rl/gym_mujoco/ant_medium.hdf5"),
  ("ant-expert-v0",
    "http://rail.eecs.berkeley.edu/datasets/offline_rl/gym_mujoco/ant_expert.hdf5"),
  ("ant-medium-replay-v0",
    "http://rail.eecs.berkeley.edu/datasets/offline_rl/gym_mujoco/ant_mixed.hdf5"),
  ("ant-medium-expert-v0",
    "http://rail.eecs.berkeley.edu/datasets/offline_rl/gym_mujoco/ant_medium_expert.hdf5"),
  ("ant-random-expert-v0",
    "http://rail.eecs.berkeley.edu/datasets/offline_rl/gym_mujoco/ant_random_expert.hdf5"),
  ("antmaze-umaze-v0",
    "http://rail.eecs.berkeley.edu/datasets/offline_rl/ant_maze_new/Ant_maze_u-maze_noisy_multistart_False_multigoal_False_sparse.hdf5"),
  ("antmaze-umaze-diverse-v0",
    "http://rail.eecs.berkeley.edu/datasets/offline_rl/ant_maze_new/Ant_maze_u-maze_noisy_multistart_True_multigoal_True_sparse.hdf5"),
  ("antmaze-medium-play-v0",
    "http://rail.eecs.berkeley.edu/datasets/offline_rl/ant_maze_new/Ant_maze_big-maze_noisy_multistart_True_multigoal_False_sparse.hdf5"),
  ("antmaze-medium-diverse-v0",
    "http://rail.eecs.berkeley.edu/datasets/offline_rl/ant_maze_new/Ant_maze_big-maze_noisy_multistart_True_multigoal_True_sparse.hdf5"),
  ("antmaze-large-play-v0",
    "http://rail.eecs.berkeley.edu/datasets/offline_rl/ant_maze_new/Ant_maze_hardest-maze_noisy_multistart_True_multigoal_False_sparse.hdf5"),
  ("antmaze-large-diverse-v0",
    "http://rail.eecs.berkeley.edu/datasets/offline_rl/ant_maze_new/Ant_maze_hardest-maze_noisy_multistart_True_multigoal_True_sparse.hdf5"),
  ("antmaze-umaze-v2",
    "http://rail.eecs.berkeley.edu/datasets/offline_rl/ant_maze_v2/Ant_maze_u-maze_noisy_multistart_False_multigoal_False_sparse_fixed.hdf5"),
  ("antmaze-umaze-diverse-v2",
    "http://rail.eecs.berkeley.edu/datasets/offline_rl/ant_maze_v2/Ant_maze_u-maze_noisy_multistart_True_multigoal_True_sparse_fixed.hdf5"),
  ("antmaze-medium-play-v2",
    "http://rail.eecs.berkeley.edu/datasets/offline_rl/ant_maze_v2/Ant_maze_big-maze_noisy_multistart_True_multigoal_False_sparse_fixed.hdf5"),
  ("antmaze-medium-diverse-v2",
    "http://rail.eecs.berkeley.edu/datasets/offline_rl/ant_maze_v2/Ant_maze_big-maze_noisy_multistart_True_multigoal_True_sparse_fixed.hdf5"),
  ("antmaze-large-play-v2",
    "http://rail.eecs.berkeley.edu/datasets/offline_rl/ant_maze_v2/Ant_maze_hardest-maze_noisy_multistart_True_multigoal_False_sparse_fixed.hdf5"),
  ("antmaze-large-diverse-v2",
    "http://rail.eecs.berkeley.edu/datasets/offline_rl/ant_maze_v2/Ant_maze_hardest-maze_noisy_multistart_True_multigoal_True_sparse_fixed.hdf5"),
  ("flow-ring-random-v0",
    "http://rail.eecs.berkeley.edu/datasets/offline_rl/flow/flow-ring-v0-random.hdf5"),
  ("flow-ring-controller-v0",
    "http://rail.eecs.berkeley.edu/datasets/offline_rl/flow/flow-ring-v0-idm.hdf5"),
  ("flow-merge-random-v0",
    "http://rail.eecs.berkeley.edu/datasets/offline_rl/flow/flow-merge-v0-random.hdf5"),
  ("flow-merge-controller-v0",
    "http://rail.eecs.berkeley.edu/datasets/offline_rl/flow/flow-merge-v0-idm.hdf5"),
  ("kitchen-complete-v0",
    "http://rail.eecs.berkeley.edu/datasets/offline_rl/kitchen/mini_kitchen_microwave_kettle_light_slider-v0.hdf5"),
  ("kitchen-partial-v0",
    "http://rail.eecs.berkeley.edu/datasets/offline_rl/kitchen/kitchen_microwave_kettle_light_slider-v0.hdf5"),
  ("kitchen-mixed-v0",
    "http://rail.eecs.berkeley.edu/datasets/offline_rl/kitchen/kitchen_microwave_kettle_bottomburner_light-v0.hdf5"),
  ("carla-lane-v0",
    "http://rail.eecs.berkeley.edu/datasets/offline_rl/carla/carla_lane_follow_flat-v0.hdf5"),
  ("carla-town-v0",
    "http://rail.eecs.berkeley.edu/datasets/offline_rl/carla/carla_town_subsamp_flat-v0.hdf5"),
  ("carla-town-full-v0",
    "http://rail.eecs.berkeley.edu/datasets/offline_rl/carla/carla_town_flat-v0.hdf5"),
  ("bullet-halfcheetah-random-v0",
    "http://rail.eecs.berkeley.edu/datasets/offline_rl/bullet/bullet-halfcheetah_random.hdf5"),
  ("bullet-halfcheetah-medium-v0",
    "http://rail.eecs.berkeley.edu/datasets/offline_rl/bullet/bullet-halfcheetah_medium.hdf5"),
  ("bullet-halfcheetah-expert-v0",
    "http://rail.eecs.berkeley.edu/datasets/offline_rl/bullet/bullet-halfcheetah_expert.hdf5"),
  ("bullet-halfcheetah-medium-expert-v0",
    "http://rail.eecs.berkeley.edu/datasets/offline_rl/bullet/bullet-halfcheetah_medium_expert.hdf5"),
  ("bullet-halfcheetah-medium-replay-v0",
    "http://rail.eecs.berkeley.edu/datasets/offline_rl/bullet/bullet-halfcheetah_medium_replay.hdf5"),
  ("bullet-hopper-random-v0",
    "http://rail.eecs.berkeley.edu/datasets/offline_rl/bullet/bullet-hopper_random.hdf5"),
  ("bullet-hopper-medium-v0",
    "http://rail.eecs.berkeley.edu/datasets/offline_rl/bullet/bullet-hopper_medium.hdf5"),
  ("bullet-hopper-expert-v0",
    "http://rail.eecs.berkeley.edu/datasets/offline_rl/bullet/bullet-hopper_expert.hdf5"),
  ("bullet-hopper-medium-expert-v0",
    "http://rail.eecs.berkeley.edu/datasets/offline_rl/bullet/bullet-hopper_medium_expert.hdf5"),
  ("bullet-hopper-medium-replay-v0",
    "http://rail.eecs.berkeley.edu/datasets/offline_rl/bullet/bullet-hopper_medium_replay.hdf5"),
  ("bullet-ant-random-v0",
    "http://rail.eecs.berkeley.edu/datasets/offline_rl/bullet/bullet-ant_random.hdf5"),
  ("bullet-ant-medium-v0",
    "http://rail.eecs.berkeley.edu/datasets/offline_rl/bullet/bullet-ant_medium.hdf5"),
  ("bullet-ant-expert-v0",
    "http://rail.eecs.berkeley.edu/datasets/offline_rl/bullet/bullet-ant_expert.hdf5"),
  ("bullet-ant-medium-expert-v0",
    "http://rail.eecs.berkeley.edu/datasets/offline_rl/bullet/bullet-ant_medium_expert.hdf5"),
  ("bullet-ant-medium-replay-v0",
    "http://rail.eecs.berkeley.edu/datasets/offline_rl/bullet/bullet-ant_medium_replay.hdf5"),
  ("bullet-walker2d-random-v0",
    "http://rail.eecs.berkeley.edu/datasets/offline_rl/bullet/bullet-walker2d_random.hdf5"),
  ("bullet-walker2d-medium-v0",
    "http://rail.eecs.berkeley.edu/datasets/offline_rl/bullet/bullet-walker2d_medium.hdf5"),
  ("bullet-walker2d-expert-v0",
    "http://rail.eecs.berkeley.edu/datasets/offline_rl/bullet/bullet-walker2d_expert.hdf5"),
  ("bullet-walker2d-medium-expert-v0",
    "http://rail.eecs.berkeley.edu/datasets/offline_rl/bullet/bullet-walker2d_medium_expert.hdf5"),
  ("bullet-walker2d-medium-replay-v0",
    "http://rail.eecs.berkeley.edu/datasets/offline_rl/bullet/bullet-walker2d_medium_replay.hdf5"),
  ("bullet-maze2d-open-v0",
    "http://rail.eecs.berkeley.edu/datasets/offline_rl/bullet/bullet-maze2d-open-sparse.hdf5"),
  ("bullet-maze2d-umaze-v0",
    "http://rail.eecs.berkeley.edu/datasets/offline_rl/bullet/bullet-maze2d-umaze-sparse.hdf5"),
  ("bullet-maze2d-medium-v0",
    "http://rail.eecs.berkeley.edu/datasets/offline_rl/bullet/bullet-maze2d-medium-sparse.hdf5"),
  ("bullet-maze2d-large-v0",
    "http://rail.eecs.berkeley.edu/datasets/offline_rl/bullet/bullet-maze2d-large-sparse.hdf5"),
  ("halfcheetah-random-v1",
    "http://rail.eecs.berkeley.edu/datasets/offline_rl/gym_mujoco_v1/halfcheetah_random-v1.hdf5"),
  ("halfcheetah-random-v2",
    "http://rail.eecs.berkeley.edu/datasets/offline_rl/gym_mujoco_v2/halfcheetah_random-v2.hdf5"),
  ("halfcheetah-medium-v1",
    "http://rail.eecs.berkeley.edu/datasets/offline_rl/gym_mujoco_v1/halfcheetah_medium-v1.hdf5"),
  ("halfcheetah-medium-v2",
    "http://rail.eecs.berkeley.edu/datasets/offline_rl/gym_mujoco_v2/halfcheetah_medium-v2.hdf5"),
  ("halfcheetah-expert-v1",
    "http://rail.eecs.berkeley.edu/datasets/offline_rl/gym_mujoco_v1/halfcheetah_expert-v1.hdf5"),
  ("halfcheetah-expert-v2",
    "http://rail.eecs.berkeley.edu/datasets/offline_rl/gym_mujoco_v2/halfcheetah_expert-v2.hdf5"),
  ("halfcheetah-medium-replay-v1",
    "http://rail.eecs.berkeley.edu/datasets/offline_rl/gym_mujoco_v1/halfcheetah_medium_replay-v1.hdf5"),
  ("halfcheetah-medium-replay-v2",
    "http://rail.eecs.berkeley.edu/datasets/offline_rl/gym_mujoco_v2/halfcheetah_medium_replay-v2.hdf5"),
  ("halfcheetah-full-replay-v1",
    "http://rail.eecs.berkeley.edu/datasets/offline_rl/gym_mujoco_v1/halfcheetah_full_replay-v1.hdf5"),
  ("halfcheetah-full-replay-v2",
    "http://rail.eecs.berkeley.edu/datasets/offline_rl/gym_mujoco_v2/halfcheetah_full_replay-v2.hdf5"),
  ("halfcheetah-medium-expert-v1",
    "http://rail.eecs.berkeley.edu/datasets/offline_rl/gym_mujoco_v1/halfcheetah_medium_expert-v1.hdf5"),
  ("halfcheetah-medium-expert-v2",
    "http://rail.eecs.berkeley.edu/datasets/offline_rl/gym_mujoco_v2/halfcheetah_medium_expert-v2.hdf5"),
  ("hopper-random-v1",
    "http://rail.eecs.berkeley.edu/datasets/offline_rl/gym_mujoco_v1/hopper_random-v1.hdf5"),
  ("hopper-random-v2",
    "http://rail.eecs.berkeley.edu/datasets/offline_rl/gym_mujoco_v2/hopper_random-v2.hdf5"),
  ("hopper-medium-v1",
    "http://rail.eecs.berkeley.edu/datasets/offline_rl/gym_mujoco_v1/hopper_medium-v1.hdf5"),
  ("hopper-medium-v2",
    "http://rail.eecs.berkeley.edu/datasets/offline_rl/gym_mujoco_v2/hopper_medium-v2.hdf5"),
  ("hopper-expert-v1",
    "http://rail.eecs.berkeley.edu/datasets/offline_rl/gym_mujoco_v1/hopper_expert-v1.hdf5"),
  ("hopper-expert-v2",
    "http://rail.eecs.berkeley.edu/datasets/offline_rl/gym_mujoco_v2/hopper_expert-v2.hdf5"),
  ("hopper-medium-replay-v1",
    "http://rail.eecs.berkeley.edu/datasets/offline_rl/gym_mujoco_v1/hopper_medium_replay-v1.hdf5"),
  ("hopper-medium-replay-v2",
    "http://rail.eecs.berkeley.edu/datasets/offline_rl/gym_mujoco_v2/hopper_medium_replay-v2.hdf5"),
  ("hopper-full-replay-v1",
    "http://rail.eecs.berkeley.edu/datasets/offline_rl/gym_mujoco_v1/hopper_full_replay-v1.hdf5"),
  ("hopper-full-replay-v2",
    "http://rail.eecs.berkeley.edu/datasets/offline_rl/gym_mujoco_v2/hopper_full_replay-v2.hdf5"),
  ("hopper-medium-expert-v1",
    "http://rail.eecs.berkeley.edu/datasets/offline_rl/gym_mujoco_v1/hopper_medium_expert-v1.hdf5"),
  ("hopper-medium-expert-v2",
    "http://rail.eecs.berkeley.edu/datasets/offline_rl/gym_mujoco_v2/hopper_medium_expert-v2.hdf5"),
  ("walker2d-random-v1",
    "http://rail.eecs.berkeley.edu/datasets/offline_rl/gym_mujoco_v1/walker2d_random-v1.hdf5"),
  ("walker2d-random-v2",
    "http://rail.eecs.berkeley.edu/datasets/offline_rl/gym_mujoco_v2/walker2d_random-v2.hdf5"),
  ("walker2d-medium-v1",
    "http://rail.eecs.berkeley.edu/datasets/offline_rl/gym_mujoco_v1/walker2d_medium-v1.hdf5"),
  ("walker2d-medium-v2",
    "http://rail.eecs.berkeley.edu/datasets/offline_rl/gym_mujoco_v2/walker2d_medium-v2.hdf5"),
  ("walker2d-expert-v1",
    "http://rail.eecs.berkeley.edu/datasets/offline_rl/gym_mujoco_v1/walker2d_expert-v1.hdf5"),
  ("walker2d-expert-v2",
    "http://rail.eecs.berkeley.edu/datasets/offline_rl/gym_mujoco_v2/walker2d_expert-v2.hdf5"),
  ("walker2d-medium-replay-v1",
    "http://rail.eecs.berkeley.edu/datasets/offline_rl/gym_mujoco_v1/walker2d_medium_replay-v1.hdf5"),
  ("walker2d-medium-replay-v2",
    "http://rail.eecs.berkeley.edu/datasets/offline_rl/gym_mujoco_v2/walker2d_medium_replay-v2.hdf5"),
  ("walker2d-full-replay-v1",
    "http://rail.eecs.berkeley.edu/datasets/offline_rl/gym_mujoco_v1/walker2d_full_replay-v1.hdf5"),
  ("walker2d-full-replay-v2",
    "http://rail.eecs.berkeley.edu/datasets/offline_rl/gym_mujoco_v2/walker2d_full_replay-v2.hdf5"),
  ("walker2d-medium-expert-v1",
    "http://rail.eecs.berkeley.edu/datasets/offline_rl/gym_mujoco_v1/walker2d_medium_expert-v1.hdf5"),
  ("walker2d-medium-expert-v2",
    "http://rail.eecs.berkeley.edu/datasets/offline_rl/gym_mujoco_v2/walker2d_medium_expert-v2.hdf5"),
  ("ant-random-v1",
    "http://rail.eecs.berkeley.edu/datasets/offline_rl/gym_mujoco_v1/ant_random-v1.hdf5"),
  ("ant-random-v2",
    "http://rail.eecs.berkeley.edu/datasets/offline_rl/gym_mujoco_v2/ant_random-v2.hdf5"),
  ("ant-medium-v1",
    "http://rail.eecs.berkeley.edu/datasets/offline_rl/gym_mujoco_v1/ant_medium-v1.hdf5"),
  ("ant-medium-v2",
    "http://rail.eecs.berkeley.edu/datasets/offline_rl/gym_mujoco_v2/ant_medium-v2.hdf5"),
  ("ant-expert-v1",
    "http://rail.eecs.berkeley.edu/datasets/offline_rl/gym_mujoco_v1/ant_expert-v1.hdf5"),
  ("ant-expert-v2",
    "http://rail.eecs.berkeley.edu/datasets/offline_rl/gym_mujoco_v2/ant_expert-v2.hdf5"),
  ("ant-medium-replay-v1",
    "http://rail.eecs.berkeley.edu/datasets/offline_rl/gym_mujoco_v1/ant_medium_replay-v1.hdf5"),
  ("ant-medium-replay-v2",
    "http://rail.eecs.berkeley.edu/datasets/offline_rl/gym_mujoco_v2/ant_medium_replay-v2.hdf5"),
  ("ant-full-replay-v1",
    "http://rail.eecs.berkeley.edu/datasets/offline_rl/gym_mujoco_v1/ant_full_replay-v1.hdf5"),
  ("ant-full-replay-v2",
    "http://rail.eecs.berkeley.edu/datasets/offline_rl/gym_mujoco_v2/ant_full_replay-v2.hdf5"),
  ("ant-medium-expert-v1",
    "http://rail.eecs.berkeley.edu/datasets/offline_rl/gym_mujoco_v1/ant_medium_expert-v1.hdf5"),
  ("ant-medium-expert-v2",
    "http://rail.eecs.berkeley.edu/datasets/offline_rl/gym_mujoco_v2/ant_medium_expert-v2.hdf5"),
  ("hammer-human-v1",
    "http://rail.eecs.berkeley.edu/datasets/offline_rl/hand_dapg_v1/hammer-human-v1.hdf5"),
  ("hammer-expert-v1",
    "http://rail.eecs.berkeley.edu/datasets/offline_rl/hand_dapg_v1/hammer-expert-v1.hdf5"),
  ("hammer-cloned-v1",
    "http://rail.eecs.berkeley.edu/datasets/offline_rl/hand_dapg_v1/hammer-cloned-v1.hdf5"),
  ("pen-human-v1",
    "http://rail.eecs.berkeley.edu/datasets/offline_rl/hand_dapg_v1/pen-human-v1.hdf5"),
  ("pen-expert-v1",
    "http://rail.eecs.berkeley.edu/datasets/offline_rl/hand_dapg_v1/pen-expert-v1.hdf5"),
  ("pen-cloned-v1",
    "http://rail.eecs.berkeley.edu/datasets/offline_rl/hand_dapg_v1/pen-cloned-v1.hdf5"),
  ("relocate-human-v1",
    "http://rail.eecs.berkeley.edu/datasets/offline_rl/hand_dapg_v1/relocate-human-v1.hdf5"),
  ("relocate-expert-v1",
    "http://rail.eecs.berkeley.edu/datasets/offline_rl/hand_dapg_v1/relocate-expert-v1.hdf5"),
  ("relocate-cloned-v1",
    "http://rail.eecs.berkeley.edu/datasets/offline_rl/hand_dapg_v1/relocate-cloned-v1.hdf5"),
  ("door-human-v1",
    "http://rail.eecs.berkeley.edu/datasets/offline_rl/hand_dapg_v1/door-human-v1.hdf5"),
  ("door-expert-v1",
    "http://rail.eecs.berkeley.edu/datasets/offline_rl/hand_dapg_v1/door-expert-v1.hdf5"),
  ("door-cloned-v1",
    "http://rail.eecs.berkeley.edu/datasets/offline_rl/hand_dapg_v1/door-cloned-v1.hdf5"),
  ("antmaze-umaze-v1",
    "http://rail.eecs.berkeley.edu/datasets/offline_rl/ant_maze_v1/Ant_maze_umaze_noisy_multistart_False_multigoal_False_sparse.hdf5"),
  ("antmaze-umaze-diverse-v1",
    "http://rail.eecs.berkeley.edu/datasets/offline_rl/ant_maze_v1/Ant_maze_umaze_noisy_multistart_True_multigoal_True_sparse.hdf5"),
  ("antmaze-medium-play-v1",
    "http://rail.eecs.berkeley.edu/datasets/offline_rl/ant_maze_v1/Ant_maze_medium_noisy_multistart_True_multigoal_False_sparse.hdf5"),
  ("antmaze-medium-diverse-v1",
    "http://rail.eecs.berkeley.edu/datasets/offline_rl/ant_maze_v1/Ant_maze_medium_noisy_multistart_True_multigoal_True_sparse.hdf5"),
  ("antmaze-large-diverse-v1",
    "http://rail.eecs.berkeley.edu/datasets/offline_rl/ant_maze_v1/Ant_maze_large_noisy_multistart_True_multigoal_True_sparse.hdf5"),
  ("antmaze-large-play-v1",
    "http://rail.eecs.berkeley.edu/datasets/offline_rl/ant_maze_v1/Ant_maze_large_noisy_multistart_True_multigoal_False_sparse.hdf5"),
  ("antmaze-eval-umaze-v0",
    "http://rail.eecs.berkeley.edu/datasets/offline_rl/ant_maze_new/Ant_maze_umaze_eval_noisy_multistart_True_multigoal_False_sparse.hdf5"),
  ("antmaze-eval-umaze-diverse-v0",
    "http://rail.eecs.berkeley.edu/datasets/offline_rl/ant_maze_new/Ant_maze_umaze_eval_noisy_multistart_True_multigoal_True_sparse.hdf5"),
  ("antmaze-eval-medium-play-v0",
    "http://rail.eecs.berkeley.edu/datasets/offline_rl/ant_maze_new/Ant_maze_medium_eval_noisy_multistart_True_multigoal_True_sparse.hdf5"),
  ("antmaze-eval-medium-diverse-v0",
    "http://rail.eecs.berkeley.edu/datasets/offline_rl/ant_maze_new/Ant_maze_medium_eval_noisy_multistart_True_multigoal_False_sparse.hdf5"),
  ("antmaze-eval-large-diverse-v0",
    "http://rail.eecs.berkeley.edu/datasets/offline_rl/ant_maze_new/Ant_maze_large_eval_noisy_multistart_True_multigoal_False_sparse.hdf5"),
  ("antmaze-eval-large-play-v0",
    "http://rail.eecs.berkeley.edu/datasets/offline_rl/ant_maze_new/Ant_maze_large_eval_noisy_multistart_True_multigoal_True_sparse.hdf5"),
  ("door-human-longhorizon-v0",
    "http://rail.eecs.berkeley.edu/datasets/offline_rl/hand_dapg/door-v0_demos_clipped.hdf5"),
  ("hammer-human-longhorizon-v0",
    "http://rail.eecs.berkeley.edu/datasets/offline_rl/hand_dapg/hammer-v0_demos_clipped.hdf5"),
  ("pen-human-longhorizon-v0",
    "http://rail.eecs.berkeley.edu/datasets/offline_rl/hand_dapg/pen-v0_demos_clipped.hdf5"),
  ("relocate-human-longhorizon-v0",
    "http://rail.eecs.berkeley.edu/datasets/offline_rl/hand_dapg/relocate-v0_demos_clipped.hdf5"),
  ("maze2d-umaze-v0",
    "http://rail.eecs.berkeley.edu/datasets/offline_rl/maze2d/maze2d-umaze-sparse.hdf5"),
  ("maze2d-medium-v0",
    "http://rail.eecs.berkeley.edu/datasets/offline_rl/maze2d/maze2d-medium-sparse.hdf5"),
  ("maze2d-large-v0",
    "http://rail.eecs.berkeley.edu/datasets/offline_rl/maze2d/maze2d-large-sparse.hdf5"),
  ("maze2d-umaze-dense-v0",
    "http://rail.eecs.berkeley.edu/datasets/offline_rl/maze2d/maze2d-umaze-dense.hdf5"),
  ("maze2d-medium-dense-v0",
    "http://rail.eecs.berkeley.edu/datasets/offline_rl/maze2d/maze2d-medium-dense.hdf5"),
  ("maze2d-large-dense-v0",
    "http://rail.eecs.berkeley.edu/datasets/offline_rl/maze2d/maze2d-large-dense.hdf5"),
  ("carla-lane-render-v0",
    "http://rail.eecs.berkeley.edu/datasets/offline_rl/carla/carla_lane_follow-v0.hdf5"),
  ("carla-town-render-v0",
    "http://rail.eecs.berkeley.edu/datasets/offline_rl/carla/carla_town_flat-v0.hdf5")]

/-- Embeds `self.D4RL_DATASETS.get(name, None)` (d4rl.py line 350). -/
def lookupDataset (name : String) : Option String :=
  (D4RL_DATASETS.find? (fun p => p.1 == name)).map Prod.snd

/-- The error taxonomy of the direct-download entry point:
`unknownDataset` models the `KeyError` of d4rl.py line 352 (the spec calls
it `UnknownDatasetError`), `envKwargsNotAllowed` the `RuntimeError` of
line 349. -/
inductive LoadError where
  | unknownDataset (name : String)
  | envKwargsNotAllowed
  deriving Repr, DecidableEq

/-- Embeds the control flow of
`D4RLExperienceReplay._get_dataset_direct_download` (d4rl.py lines
346-359) up to the download itself: reject extra `env_kwargs`; look the
name up in the archive-source table and abort with an error when it is
absent; otherwise the load proceeds with the resolved URL (the download
and hdf5 decoding are external collaborators). -/
def getDatasetDirectDownload (envKwargsEmpty : Bool) (name : String) :
    Except LoadError String :=
  if !envKwargsEmpty then .error .envKwargsNotAllowed
  else
    match lookupDataset name with
    | none => .error (.unknownDataset name)
    | some url => .ok url

/-- A concrete Step Table used to instantiate witness theorems. -/
def exTable : StepTable :=
  { observation := [[1], [2], [3]]
    action := [[4], [5], [6]]
    reward := [10, 20, 30]
    done := [false, true, false]
    terminated := [false, true, false]
    truncated := some [true, false, false]
    info := none
    next :=
      { observation := [[2], [3], [7]]
        reward := [10, 20, 30]
        done := [false, true, false]
        terminated := [false, true, false]
        truncated := some [true, false, false]
        info := none } }

/-- Concrete raw flat-sequence data used to instantiate witness and
counterexample theorems.  Four steps; with the truncation-counted policy
the pre-shift `done` column is `[false, true, true, false]`. -/
def exRawEnv : RawEnvData :=
  { observations := [[1], [2], [3], [4]]
    actions := [[9], [8], [7], [6]]
    rewards := [10, 20, 30, 40]
    terminals := [false, false, true, false]
    timeouts := some [false, true, false, false]
    infos := none
    metadata := some 7 }

/-- Concrete raw library-computed data used to instantiate witness and
counterexample theorems. -/
def exRawQ : RawQlearningData :=
  { observations := [[1], [2], [3]]
    actions := [[0], [1], [2]]
    next_observations := [[2], [3], [9]]
    rewards := [10, 20, 30]
    terminals := [false, true, false]
    timeouts := none
    metadata := some 3 }

/-- One field of `_shift_reward_done` including the error path: models
`x = x.clone(); x[1:] = x[:-1].clone(); x[0] = zero`, where the final
write `x[0] = zero` (d4rl.py lines 518 and 524) raises `IndexError` on
a zero-row column; `none` models that abort. -/
def shiftFieldChecked {α : Type} (zero : α) (xs : List α) : Option (List α) :=
  match xs.take 1 ++ xs.dropLast with
  | [] => none
  | _ :: t => some (zero :: t)

/-- Embeds `D4RLExperienceReplay._shift_reward_done` (d4rl.py lines
515-524) including its error path: `reward` is shifted first (lines
516-518), then `done`, `terminated` and `truncated` in the loop's order
(lines 519-524, skipping absent columns); the first out-of-bounds row-0
write aborts the load (`none`), so no table is produced. -/
def shiftRewardDoneChecked (dataset : StepTable) : Option StepTable :=
  match shiftFieldChecked 0 dataset.reward with
  | none => none
  | some reward =>
    match shiftFieldChecked false dataset.done with
    | none => none
    | some done =>
      match shiftFieldChecked false dataset.terminated with
      | none => none
      | some terminated =>
        match dataset.truncated with
        | none =>
          some { dataset with
            reward := reward
            done := done
            terminated := terminated }
        | some tr =>
          match shiftFieldChecked false tr with
          | none => none
          | some truncated =>
            some { dataset with
              reward := reward
              done := done
              terminated := terminated
              truncated := some truncated }

/-- Embeds `D4RLExperienceReplay._process_data_from_env` (d4rl.py lines
454-513) including the error path of `_shift_reward_done`: the
construction steps are those of `processDataFromEnv`, but the shift
aborts the load (`none`) when a shifted column has zero rows, which
happens exactly when the raw input has fewer than two rows. -/
def processDataFromEnvChecked (useTruncatedAsDone : Bool)
    (raw : RawEnvData) : Option (StepTable × Option Int) :=
  let observation := raw.observations
  let action := raw.actions
  let reward := raw.rewards
  let terminated := raw.terminals
  let truncated := raw.timeouts
  let info := raw.infos
  let done := computeDone useTruncatedAsDone terminated truncated
  let nxt : NextBlock :=
    { observation := observation.drop 1
      reward := reward.dropLast
      done := done.dropLast
      terminated := terminated.dropLast
      truncated := truncated.map List.dropLast
      info := info.map (List.drop 1) }
  let table : StepTable :=
    { observation := observation.dropLast
      action := action.dropLast
      reward := reward.dropLast
      done := done.dropLast
      terminated := terminated.dropLast
      truncated := truncated.map List.dropLast
      info := info.map List.dropLast
      next := nxt }
  (shiftRewardDoneChecked table).map (fun t => (t, raw.metadata))

/-- Embeds the data-processing part of
`D4RLExperienceReplay._get_dataset_direct` (d4rl.py lines 361-427)
including the error path of `_shift_reward_done`: the construction
steps are those of `getDatasetDirect`, but the shift aborts the load
(`none`) when a shifted column has zero rows, which happens exactly
when the raw input has zero rows. -/
def getDatasetDirectChecked (useTruncatedAsDone : Bool)
    (raw : RawQlearningData) : Option (StepTable × Option Int) :=
  let observation := raw.observations
  let action := raw.actions
  let reward := raw.rewards
  let terminated := raw.terminals
  let truncated := raw.timeouts
  let done := computeDone useTruncatedAsDone terminated truncated
  let nxt : NextBlock :=
    { observation := raw.next_observations
      reward := reward
      done := done
      terminated := terminated
      truncated := truncated
      info := none }
  let table : StepTable :=
    { observation := observation
      action := action
      reward := reward
      done := done
      terminated := terminated
      truncated := truncated
      info := none
      next := nxt }
  (shiftRewardDoneChecked table).map (fun t => (t, raw.metadata))

/-- The finished (unsplit) table of the flat-sequence provenance paths
with the shift's error path modelled: `none` when the load aborts
before `__init__` can run the terminal zeroing of line 327. -/
def finishedFromEnvChecked (useTruncatedAsDone : Bool)
    (raw : RawEnvData) : Option StepTable :=
  (processDataFromEnvChecked useTruncatedAsDone raw).map
    (fun p => zeroDoneNextObs p.1)

/-- The finished (unsplit) table of the library-computed provenance
path with the shift's error path modelled: `none` when the load aborts
before `__init__` can run the terminal zeroing of line 327. -/
def finishedDirectChecked (useTruncatedAsDone : Bool)
    (raw : RawQlearningData) : Option StepTable :=
  (getDatasetDirectChecked useTruncatedAsDone raw).map
    (fun p => zeroDoneNextObs p.1)

/-- A one-row raw flat sequence: derived-mode construction drops the
only row (`dataset[:-1]`), leaving zero-row columns, so the shift's
row-0 write is out of bounds and the load aborts. -/
def exRawEnv1 : RawEnvData :=
  { observations := [[5]]
    actions := [[1]]
    rewards := [42]
    terminals := [true]
    timeouts := none
    infos := none
    metadata := none }

/-- A zero-row raw library-computed dataset: the shift's row-0 write is
out of bounds and the load aborts. -/
def exRawQ0 : RawQlearningData :=
  { observations := []
    actions := []
    next_observations := []
    rewards := []
    terminals := []
    timeouts := none
    metadata := none }

/-! ### Helper lemmas about the shift and the list combinators -/

theorem shiftField_nil {α : Type} (zero : α) : shiftField zero [] = [] := rfl

theorem shiftField_cons {α : Type} (zero x : α) (xs : List α) :
    shiftField zero (x :: xs) = zero :: (x :: xs).dropLast := by
  simp [shiftField, setIdx0]

theorem shiftField_length {α : Type} (zero : α) (xs : List α) :
    (shiftField zero xs).length = xs.length := by
  cases xs with
  | nil => rfl
  | cons x xs => simp [shiftField_cons]

theorem shiftField_getD_zero {α : Type} (zero d : α) (xs : List α)
    (h : xs ≠ []) : (shiftField zero xs).getD 0 d = zero := by
  cases xs with
  | nil => exact absurd rfl h
  | cons x xs => simp [shiftField_cons]

theorem shiftField_getD_succ {α : Type} (zero d : α) (xs : List α) (t : Nat)
    (h1 : 1 ≤ t) (h2 : t < xs.length) :
    (shiftField zero xs).getD t d = xs.getD (t - 1) d := by
  cases xs with
  | nil => simp at h2
  | cons x xs =>
    obtain ⟨k, rfl⟩ : ∃ k, t = k + 1 := ⟨t - 1, (Nat.succ_pred_eq_of_pos h1).symm⟩
    simp only [shiftField_cons, List.getD_cons_succ, Nat.add_sub_cancel]
    rw [List.getD_eq_getElem?_getD, List.getD_eq_getElem?_getD,
      List.getElem?_dropLast, if_pos]
    simpa using Nat.lt_of_succ_lt_succ h2

theorem getD_dropLast {α : Type} (xs : List α) (t : Nat) (d : α)
    (h : t + 1 < xs.length) : xs.dropLast.getD t d = xs.getD t d := by
  rw [List.getD_eq_getElem?_getD, List.getD_eq_getElem?_getD,
    List.getElem?_dropLast, if_pos (by omega)]

theorem getD_drop_one {α : Type} (xs : List α) (t : Nat) (d : α) :
    (xs.drop 1).getD t d = xs.getD (t + 1) d := by
  rw [List.getD_eq_getElem?_getD, List.getD_eq_getElem?_getD,
    List.getElem?_drop, Nat.add_comm]

theorem computeDone_length (u : Bool) (term : List Bool)
    (trunc : Option (List Bool)) (h : optLenB trunc term.length = true) :
    (computeDone u term trunc).length = term.length := by
  cases u <;> cases trunc with
  | _ => simp_all [computeDone, optLenB]

/-! ### Column-level descriptions of the finished tables

Each of the following is definitional: it reads the corresponding column
of the finished table off the embedded pipeline. -/

theorem finishedFromEnv_observation (u : Bool) (raw : RawEnvData) :
    (finishedFromEnv u raw).observation = raw.observations.dropLast := rfl

theorem finishedFromEnv_action (u : Bool) (raw : RawEnvData) :
    (finishedFromEnv u raw).action = raw.actions.dropLast := rfl

theorem finishedFromEnv_reward (u : Bool) (raw : RawEnvData) :
    (finishedFromEnv u raw).reward = shiftField 0 raw.rewards.dropLast := rfl

theorem finishedFromEnv_done (u : Bool) (raw : RawEnvData) :
    (finishedFromEnv u raw).done =
      shiftField false (computeDone u raw.terminals raw.timeouts).dropLast := rfl

theorem finishedFromEnv_terminated (u : Bool) (raw : RawEnvData) :
    (finishedFromEnv u raw).terminated =
      shiftField false raw.terminals.dropLast := rfl

theorem finishedFromEnv_truncated (u : Bool) (raw : RawEnvData) :
    (finishedFromEnv u raw).truncated =
      (raw.timeouts.map List.dropLast).map (shiftField false) := rfl

theorem finishedFromEnv_next_observation (u : Bool) (raw : RawEnvData) :
    (finishedFromEnv u raw).next.observation =
      List.zipWith (fun dn o => if dn then zeroLike o else o)
        (computeDone u raw.terminals raw.timeouts).dropLast
        (raw.observations.drop 1) := rfl

theorem finishedFromEnv_next_reward (u : Bool) (raw : RawEnvData) :
    (finishedFromEnv u raw).next.reward = raw.rewards.dropLast := rfl

theorem finishedFromEnv_next_done (u : Bool) (raw : RawEnvData) :
    (finishedFromEnv u raw).next.done =
      (computeDone u raw.terminals raw.timeouts).dropLast := rfl

theorem finishedFromEnv_next_terminated (u : Bool) (raw : RawEnvData) :
    (finishedFromEnv u raw).next.terminated = raw.terminals.dropLast := rfl

theorem finishedFromEnv_next_truncated (u : Bool) (raw : RawEnvData) :
    (finishedFromEnv u raw).next.truncated =
      raw.timeouts.map List.dropLast := rfl

theorem finishedDirect_observation (u : Bool) (raw : RawQlearningData) :
    (finishedDirect u raw).observation = raw.observations := rfl

theorem finishedDirect_action (u : Bool) (raw : RawQlearningData) :
    (finishedDirect u raw).action = raw.actions := rfl

theorem finishedDirect_reward (u : Bool) (raw : RawQlearningData) :
    (finishedDirect u raw).reward = shiftField 0 raw.rewards := rfl

theorem finishedDirect_done (u : Bool) (raw : RawQlearningData) :
    (finishedDirect u raw).done =
      shiftField false (computeDone u raw.terminals raw.timeouts) := rfl

theorem finishedDirect_terminated (u : Bool) (raw : RawQlearningData) :
    (finishedDirect u raw).terminated = shiftField false raw.terminals := rfl

theorem finishedDirect_truncated (u : Bool) (raw : RawQlearningData) :
    (finishedDirect u raw).truncated =
      raw.timeouts.map (shiftField false) := rfl

theorem finishedDirect_next_observation (u : Bool) (raw : RawQlearningData) :
    (finishedDirect u raw).next.observation =
      List.zipWith (fun dn o => if dn then zeroLike o else o)
        (computeDone u raw.terminals raw.timeouts)
        raw.next_observations := rfl

theorem finishedDirect_next_reward (u : Bool) (raw : RawQlearningData) :
    (finishedDirect u raw).next.reward = raw.rewards := rfl

theorem finishedDirect_next_done (u : Bool) (raw : RawQlearningData) :
    (finishedDirect u raw).next.done =
      computeDone u raw.terminals raw.timeouts := rfl

theorem finishedDirect_next_terminated (u : Bool) (raw : RawQlearningData) :
    (finishedDirect u raw).next.terminated = raw.terminals := rfl

theorem finishedDirect_next_truncated (u : Bool) (raw : RawQlearningData) :
    (finishedDirect u raw).next.truncated = raw.timeouts := rfl

theorem zeroDoneNextObs_next_done (d : StepTable) :
    (zeroDoneNextObs d).next.done = d.next.done := rfl

theorem zeroDoneNextObs_all_zero (d : StepTable) (t : Nat)
    (h : d.next.done.getD t false = true) :
    ∀ x ∈ (zeroDoneNextObs d).next.observation.getD t [], x = 0 := by
  have hz : (zeroDoneNextObs d).next.observation =
      List.zipWith (fun dn o => if dn then zeroLike o else o)
        d.next.done d.next.observation := rfl
  rw [hz, List.getD_eq_getElem?_getD, List.getElem?_zipWith]
  rw [List.getD_eq_getElem?_getD] at h
  cases hdt : d.next.done[t]? with
  | none => rw [hdt] at h; simp at h
  | some b =>
    rw [hdt] at h
    simp only [Option.getD_some] at h
    subst h
    cases hob : d.next.observation[t]? with
    | none => simp
    | some o => simp [zeroLike]

theorem zeroDoneNextObs_done_false (d : StepTable) (t : Nat)
    (hlen : d.next.observation.length = d.next.done.length)
    (h : d.next.done.getD t false = false) :
    (zeroDoneNextObs d).next.observation.getD t [] =
      d.next.observation.getD t [] := by
  have hz : (zeroDoneNextObs d).next.observation =
      List.zipWith (fun dn o => if dn then zeroLike o else o)
        d.next.done d.next.observation := rfl
  rw [hz, List.getD_eq_getElem?_getD, List.getElem?_zipWith]
  by_cases ht : t < d.next.done.length
  · have hdt : d.next.done[t]? = some false := by
      rw [List.getD_eq_getElem?_getD] at h
      rcases List.getElem?_eq_some_iff.mpr ⟨ht, rfl⟩ with _
      cases hdt : d.next.done[t]? with
      | none => exact absurd (List.getElem?_eq_none_iff.mp hdt) (by omega)
      | some b => rw [hdt] at h; simpa using h
    rw [hdt]
    cases hob : d.next.observation[t]? with
    | none =>
      exact absurd (List.getElem?_eq_none_iff.mp hob) (by omega)
    | some o => simp [List.getD_eq_getElem?_getD, hob]
  · have h1 : d.next.done[t]? = none := List.getElem?_eq_none_iff.mpr (by omega)
    have h2 : d.next.observation[t]? = none :=
      List.getElem?_eq_none_iff.mpr (by omega)
    rw [h1]
    simp [List.getD_eq_getElem?_getD, h2]

/-! ### The claims -/

/-- Claim C1: for every Step Table, `_shift_reward_done` rewrites each of
`reward`, `done`, `terminated` and `truncated` (the last only when the
column is present) so that the post-shift value at every row `t ≥ 1`
equals the pre-shift value at row `t - 1`, row `0` is reset to the
field's identity value (`0` / `false`), and the row count of every field
is preserved.  The right-hand sides refer to the unshifted input table
`d`, so the equalities also certify that the slice write corrupts no
pre-shift source value it still needs to read (the shift reads from an
independent snapshot). -/
theorem shift_reward_done_correct (d : StepTable) (t : Nat) (ht : 1 ≤ t) :
    ((shiftRewardDone d).reward.length = d.reward.length ∧
     (shiftRewardDone d).done.length = d.done.length ∧
     (shiftRewardDone d).terminated.length = d.terminated.length) ∧
    (t < d.reward.length →
      (shiftRewardDone d).reward.getD t 0 = d.reward.getD (t - 1) 0) ∧
    (t < d.done.length →
      (shiftRewardDone d).done.getD t false = d.done.getD (t - 1) false) ∧
    (t < d.terminated.length →
      (shiftRewardDone d).terminated.getD t false =
        d.terminated.getD (t - 1) false) ∧
    (∀ tr, d.truncated = some tr →
      (shiftRewardDone d).truncated = some (shiftField false tr) ∧
      (shiftField false tr).length = tr.length ∧
      (t < tr.length →
        (shiftField false tr).getD t false = tr.getD (t - 1) false) ∧
      (tr ≠ [] → (shiftField false tr).getD 0 false = false)) ∧
    (d.truncated = none → (shiftRewardDone d).truncated = none) ∧
    (d.reward ≠ [] → (shiftRewardDone d).reward.getD 0 0 = 0) ∧
    (d.done ≠ [] → (shiftRewardDone d).done.getD 0 false = false) ∧
    (d.terminated ≠ [] →
      (shiftRewardDone d).terminated.getD 0 false = false) := by
  refine ⟨⟨shiftField_length _ _, shiftField_length _ _, shiftField_length _ _⟩,
    fun h => shiftField_getD_succ _ _ _ _ ht h,
    fun h => shiftField_getD_succ _ _ _ _ ht h,
    fun h => shiftField_getD_succ _ _ _ _ ht h,
    fun tr htr => ?_, fun htr => ?_,
    fun h => shiftField_getD_zero _ _ _ h,
    fun h => shiftField_getD_zero _ _ _ h,
    fun h => shiftField_getD_zero _ _ _ h⟩
  · refine ⟨?_, shiftField_length _ _,
      fun h => shiftField_getD_succ _ _ _ _ ht h,
      fun h => shiftField_getD_zero _ _ _ h⟩
    show d.truncated.map (shiftField false) = some (shiftField false tr)
    rw [htr]; rfl
  · show d.truncated.map (shiftField false) = none
    rw [htr]; rfl

/-- Witness for C1 at the concrete table `exTable` and row `t = 1`:
the post-shift reward at row 1 is the pre-shift reward of row 0. -/
theorem shift_reward_done_correct_witness :
    (shiftRewardDone exTable).reward.getD 1 0 = exTable.reward.getD 0 0 :=
  (shift_reward_done_correct exTable 1 (by decide)).2.1 (by decide)

/-- Claim C2: on the finished table of every provenance path, every row
whose `next.done` flag is set has an all-zero `next.observation`,
whatever next observation the raw source supplied for that row. -/
theorem terminal_next_obs_zero (u : Bool) (rawE : RawEnvData)
    (rawQ : RawQlearningData) (t : Nat) :
    ((finishedFromEnv u rawE).next.done.getD t false = true →
      ∀ x ∈ (finishedFromEnv u rawE).next.observation.getD t [], x = 0) ∧
    ((finishedDirect u rawQ).next.done.getD t false = true →
      ∀ x ∈ (finishedDirect u rawQ).next.observation.getD t [], x = 0) := by
  constructor
  · intro h
    exact zeroDoneNextObs_all_zero (processDataFromEnv u rawE).1 t h
  · intro h
    exact zeroDoneNextObs_all_zero (getDatasetDirect u rawQ).1 t h

/-- Witness for C2: in the concrete dataset `exRawEnv`, row 2 of the
finished table has `next.done = true` (the raw terminal at row 2), and
its next observation is the all-zero row even though the raw source
supplied observation `[4]` as its successor. -/
theorem terminal_next_obs_zero_witness :
    ∀ x ∈ (finishedFromEnv true exRawEnv).next.observation.getD 2 [], x = 0 :=
  (terminal_next_obs_zero true exRawEnv exRawQ 2).1 (by decide)

/-- Claim C8: the metadata block is moved to the side channel unchanged
(`none` models the empty mapping written when no block is present), and
the finished Step Table does not depend on it: processing raw data with
its metadata block removed yields the identical table, in both
construction modes. -/
theorem metadata_isolation (u : Bool) (rawE : RawEnvData)
    (rawQ : RawQlearningData) :
    (processDataFromEnv u rawE).2 = rawE.metadata ∧
    (processDataFromEnv u rawE).1 =
      (processDataFromEnv u { rawE with metadata := none }).1 ∧
    (getDatasetDirect u rawQ).2 = rawQ.metadata ∧
    (getDatasetDirect u rawQ).1 =
      (getDatasetDirect u { rawQ with metadata := none }).1 :=
  ⟨rfl, rfl, rfl, rfl⟩

theorem optLenB_some {α : Type} (xs : List α) (n : Nat)
    (h : optLenB (some xs) n = true) : xs.length = n := by
  simpa [optLenB] using h

theorem rawEnvData_wf_unpack (raw : RawEnvData) (h : raw.wfB = true) :
    raw.actions.length = raw.observations.length ∧
    raw.rewards.length = raw.observations.length ∧
    raw.terminals.length = raw.observations.length ∧
    optLenB raw.timeouts raw.observations.length = true ∧
    optLenB raw.infos raw.observations.length = true := by
  simp only [RawEnvData.wfB, Bool.and_eq_true, beq_iff_eq] at h
  tauto

theorem rawQlearningData_wf_unpack (raw : RawQlearningData)
    (h : raw.wfB = true) :
    raw.actions.length = raw.observations.length ∧
    raw.next_observations.length = raw.observations.length ∧
    raw.rewards.length = raw.observations.length ∧
    raw.terminals.length = raw.observations.length ∧
    optLenB raw.timeouts raw.observations.length = true := by
  simp only [RawQlearningData.wfB, Bool.and_eq_true, beq_iff_eq] at h
  tauto

theorem ne_nil_of_shiftField_ne_nil {α : Type} {zero : α} {xs : List α}
    (h : shiftField zero xs ≠ []) : xs ≠ [] := by
  intro hx; subst hx; exact h rfl

theorem zipWith_or_getD (a b : List Bool) (t : Nat)
    (hlen : b.length = a.length) :
    (List.zipWith (fun x y => x || y) a b).getD t false =
      (a.getD t false || b.getD t false) := by
  rw [List.getD_eq_getElem?_getD, List.getElem?_zipWith,
    List.getD_eq_getElem?_getD, List.getD_eq_getElem?_getD]
  by_cases h : t < a.length
  · rw [List.getElem?_eq_getElem h, List.getElem?_eq_getElem (by omega)]
    simp
  · rw [List.getElem?_eq_none_iff.mpr (by omega),
      List.getElem?_eq_none_iff.mpr (by omega)]
    simp

/-- Claim C3 is false on the code: the `next.*` copies are attached
before `_shift_reward_done` runs, and the shift rewrites only the
top-level columns, so `next.reward[t]` keeps the pre-shift value instead
of the post-shift `reward[t]`.  At the concrete dataset `exRawEnv`
(raw rewards `[10, 20, 30, 40]`) the finished table has
`reward = [0, 10, 20]` but `next.reward = [10, 20, 30]`; row 1 differs. -/
theorem next_fields_shift_counterexample :
    ¬ ((finishedFromEnv true exRawEnv).next.reward.getD 1 0 =
       (finishedFromEnv true exRawEnv).reward.getD 1 0) := by decide

/-- Claim C3 amended: in both construction modes the `next.reward`,
`next.done`, `next.terminated` and `next.truncated` columns of the
finished table hold the raw pre-shift current-step values; equivalently,
for every row `t` such that row `t + 1` exists, `next.reward[t]` equals
the post-shift top-level `reward[t + 1]` (and likewise for the flag
columns) — the value the shift moved one row further down, not
`reward[t]`. -/
theorem next_fields_pre_shift (u : Bool) (rawE : RawEnvData)
    (rawQ : RawQlearningData) (t : Nat)
    (hE : rawE.wfB = true) (hQ : rawQ.wfB = true) :
    (t + 1 < (finishedFromEnv u rawE).reward.length →
      (finishedFromEnv u rawE).next.reward.getD t 0 =
        (finishedFromEnv u rawE).reward.getD (t + 1) 0 ∧
      (finishedFromEnv u rawE).next.done.getD t false =
        (finishedFromEnv u rawE).done.getD (t + 1) false ∧
      (finishedFromEnv u rawE).next.terminated.getD t false =
        (finishedFromEnv u rawE).terminated.getD (t + 1) false ∧
      (∀ tr ntr, (finishedFromEnv u rawE).truncated = some tr →
        (finishedFromEnv u rawE).next.truncated = some ntr →
        ntr.getD t false = tr.getD (t + 1) false)) ∧
    (t + 1 < (finishedDirect u rawQ).reward.length →
      (finishedDirect u rawQ).next.reward.getD t 0 =
        (finishedDirect u rawQ).reward.getD (t + 1) 0 ∧
      (finishedDirect u rawQ).next.done.getD t false =
        (finishedDirect u rawQ).done.getD (t + 1) false ∧
      (finishedDirect u rawQ).next.terminated.getD t false =
        (finishedDirect u rawQ).terminated.getD (t + 1) false ∧
      (∀ tr ntr, (finishedDirect u rawQ).truncated = some tr →
        (finishedDirect u rawQ).next.truncated = some ntr →
        ntr.getD t false = tr.getD (t + 1) false)) := by
  obtain ⟨hEa, hEr, hEt, hEtm, -⟩ := rawEnvData_wf_unpack rawE hE
  obtain ⟨hQa, hQn, hQr, hQt, hQtm⟩ := rawQlearningData_wf_unpack rawQ hQ
  constructor
  · intro h
    rw [finishedFromEnv_reward, shiftField_length] at h
    have hdl : (computeDone u rawE.terminals rawE.timeouts).dropLast.length =
        rawE.rewards.dropLast.length := by
      rw [List.length_dropLast, List.length_dropLast,
        computeDone_length u _ _ (by rw [hEt]; exact hEtm), hEt, hEr]
    have htl : rawE.terminals.dropLast.length = rawE.rewards.dropLast.length := by
      rw [List.length_dropLast, List.length_dropLast, hEt, hEr]
    refine ⟨?_, ?_, ?_, ?_⟩
    · rw [finishedFromEnv_next_reward, finishedFromEnv_reward,
        shiftField_getD_succ _ _ _ _ (by omega) h, Nat.add_sub_cancel]
    · rw [finishedFromEnv_next_done, finishedFromEnv_done,
        shiftField_getD_succ _ _ _ _ (by omega) (by omega), Nat.add_sub_cancel]
    · rw [finishedFromEnv_next_terminated, finishedFromEnv_terminated,
        shiftField_getD_succ _ _ _ _ (by omega) (by omega), Nat.add_sub_cancel]
    · intro tr ntr htr hntr
      rw [finishedFromEnv_truncated] at htr
      rw [finishedFromEnv_next_truncated] at hntr
      cases htm : rawE.timeouts with
      | none => rw [htm] at htr; exact absurd htr (by simp)
      | some tl =>
        rw [htm] at htr hntr
        have htr' : shiftField false tl.dropLast = tr := by simpa using htr
        have hntr' : tl.dropLast = ntr := by simpa using hntr
        have hlen : tl.length = rawE.observations.length := by
          rw [htm] at hEtm; exact optLenB_some _ _ hEtm
        have h' : t + 1 < rawE.observations.length - 1 := by
          rw [List.length_dropLast] at h; omega
        rw [← htr', ← hntr',
          shiftField_getD_succ _ _ _ _ (by omega)
            (by rw [List.length_dropLast]; omega), Nat.add_sub_cancel]
  · intro h
    rw [finishedDirect_reward, shiftField_length] at h
    have hdn : (computeDone u rawQ.terminals rawQ.timeouts).length =
        rawQ.rewards.length := by
      rw [computeDone_length u _ _ (by rw [hQt]; exact hQtm), hQt, hQr]
    refine ⟨?_, ?_, ?_, ?_⟩
    · rw [finishedDirect_next_reward, finishedDirect_reward,
        shiftField_getD_succ _ _ _ _ (by omega) h, Nat.add_sub_cancel]
    · rw [finishedDirect_next_done, finishedDirect_done,
        shiftField_getD_succ _ _ _ _ (by omega) (by omega), Nat.add_sub_cancel]
    · rw [finishedDirect_next_terminated, finishedDirect_terminated,
        shiftField_getD_succ _ _ _ _ (by omega) (by omega), Nat.add_sub_cancel]
    · intro tr ntr htr hntr
      rw [finishedDirect_truncated] at htr
      rw [finishedDirect_next_truncated] at hntr
      cases htm : rawQ.timeouts with
      | none => rw [htm] at htr; exact absurd htr (by simp)
      | some tl =>
        rw [htm] at htr hntr
        have htr' : shiftField false tl = tr := by simpa using htr
        have hntr' : tl = ntr := by simpa using hntr
        have hlen : tl.length = rawQ.observations.length := by
          rw [htm] at hQtm; exact optLenB_some _ _ hQtm
        rw [← htr', ← hntr',
          shiftField_getD_succ _ _ _ _ (by omega) (by omega),
          Nat.add_sub_cancel]

/-- Witness for the amended C3 at `exRawEnv` and `exRawQ`, row `t = 0`:
`next.reward[0]` equals the post-shift `reward[1]` in both modes. -/
theorem next_fields_pre_shift_witness :
    (finishedFromEnv true exRawEnv).next.reward.getD 0 0 =
      (finishedFromEnv true exRawEnv).reward.getD 1 0 ∧
    (finishedDirect true exRawQ).next.reward.getD 0 0 =
      (finishedDirect true exRawQ).reward.getD 1 0 := by
  have h := next_fields_pre_shift true exRawEnv exRawQ 0
    (by decide) (by decide)
  exact ⟨(h.1 (by decide)).1, (h.2 (by decide)).1⟩

/-- Claim C4: on every finished-table row whose `next.done` flag is
clear, `next.observation[t]` is `observation[t + 1]` of the same flat
sequence in derived mode (equal to `observation[t + 1]` of the finished
table whenever row `t + 1` was retained), and the raw pre-built
`next_observations[t]` value in pre-built mode. -/
theorem next_obs_consistency (u : Bool) (rawE : RawEnvData)
    (rawQ : RawQlearningData) (t : Nat)
    (hE : rawE.wfB = true) (hQ : rawQ.wfB = true) :
    ((finishedFromEnv u rawE).next.done.getD t false = false →
      (finishedFromEnv u rawE).next.observation.getD t [] =
        rawE.observations.getD (t + 1) []) ∧
    (t + 1 < (finishedFromEnv u rawE).observation.length →
      (finishedFromEnv u rawE).observation.getD (t + 1) [] =
        rawE.observations.getD (t + 1) []) ∧
    ((finishedDirect u rawQ).next.done.getD t false = false →
      (finishedDirect u rawQ).next.observation.getD t [] =
        rawQ.next_observations.getD t []) ∧
    (finishedDirect u rawQ).observation = rawQ.observations := by
  obtain ⟨hEa, hEr, hEt, hEtm, -⟩ := rawEnvData_wf_unpack rawE hE
  obtain ⟨hQa, hQn, hQr, hQt, hQtm⟩ := rawQlearningData_wf_unpack rawQ hQ
  refine ⟨?_, ?_, ?_, rfl⟩
  · intro h
    have hlen : (processDataFromEnv u rawE).1.next.observation.length =
        (processDataFromEnv u rawE).1.next.done.length := by
      show (rawE.observations.drop 1).length =
        (computeDone u rawE.terminals rawE.timeouts).dropLast.length
      rw [List.length_drop, List.length_dropLast,
        computeDone_length u _ _ (by rw [hEt]; exact hEtm), hEt]
    have hfin : (finishedFromEnv u rawE).next.observation.getD t [] =
        (processDataFromEnv u rawE).1.next.observation.getD t [] :=
      zeroDoneNextObs_done_false (processDataFromEnv u rawE).1 t hlen h
    rw [hfin]
    show (rawE.observations.drop 1).getD t [] = rawE.observations.getD (t + 1) []
    exact getD_drop_one _ _ _
  · intro h
    rw [finishedFromEnv_observation] at h ⊢
    exact getD_dropLast _ _ _ (by rw [List.length_dropLast] at h; omega)
  · intro h
    have hlen : (getDatasetDirect u rawQ).1.next.observation.length =
        (getDatasetDirect u rawQ).1.next.done.length := by
      show rawQ.next_observations.length =
        (computeDone u rawQ.terminals rawQ.timeouts).length
      rw [computeDone_length u _ _ (by rw [hQt]; exact hQtm), hQt, hQn]
    exact zeroDoneNextObs_done_false (getDatasetDirect u rawQ).1 t hlen h

/-- Witness for C4 at `exRawEnv`, `exRawQ` and row `t = 0` (where
`next.done` is `false` in both modes): the derived-mode next observation
is the raw observation of row 1 and coincides with `observation[1]` of
the finished table; the pre-built-mode next observation is the raw
pre-built value. -/
theorem next_obs_consistency_witness :
    (finishedFromEnv true exRawEnv).next.observation.getD 0 [] =
      exRawEnv.observations.getD 1 [] ∧
    (finishedFromEnv true exRawEnv).observation.getD 1 [] =
      exRawEnv.observations.getD 1 [] ∧
    (finishedDirect true exRawQ).next.observation.getD 0 [] =
      exRawQ.next_observations.getD 0 [] := by
  have h := next_obs_consistency true exRawEnv exRawQ 0 (by decide) (by decide)
  exact ⟨h.1 (by decide), h.2.1 (by decide), h.2.2.1 (by decide)⟩

theorem shiftFieldChecked_of_ne_nil {α : Type} (zero : α) (xs : List α)
    (h : xs ≠ []) :
    shiftFieldChecked zero xs = some (shiftField zero xs) := by
  cases xs with
  | nil => exact absurd rfl h
  | cons x t => rfl

theorem shiftRewardDoneChecked_some (d : StepTable)
    (hr : d.reward ≠ []) (hd : d.done ≠ []) (ht : d.terminated ≠ [])
    (htr : ∀ tr, d.truncated = some tr → tr ≠ []) :
    shiftRewardDoneChecked d = some (shiftRewardDone d) := by
  cases htm : d.truncated with
  | none =>
    simp only [shiftRewardDoneChecked, htm,
      shiftFieldChecked_of_ne_nil _ _ hr, shiftFieldChecked_of_ne_nil _ _ hd,
      shiftFieldChecked_of_ne_nil _ _ ht]
    simp [shiftRewardDone, htm]
  | some tl =>
    simp only [shiftRewardDoneChecked, htm,
      shiftFieldChecked_of_ne_nil _ _ hr, shiftFieldChecked_of_ne_nil _ _ hd,
      shiftFieldChecked_of_ne_nil _ _ ht,
      shiftFieldChecked_of_ne_nil _ _ (htr tl htm)]
    simp [shiftRewardDone, htm]

theorem checkedPipeline_eq (T : StepTable) (md : Option Int)
    (h : shiftRewardDoneChecked T = some (shiftRewardDone T)) :
    (shiftRewardDoneChecked T).map (fun t => (t, md)) =
      some (shiftRewardDone T, md) := by
  rw [h]; rfl

theorem processDataFromEnvChecked_eq (u : Bool) (raw : RawEnvData)
    (h2 : 2 ≤ raw.observations.length) (hE : raw.wfB = true) :
    processDataFromEnvChecked u raw = some (processDataFromEnv u raw) := by
  obtain ⟨hEa, hEr, hEt, hEtm, -⟩ := rawEnvData_wf_unpack raw hE
  have hdlen : (computeDone u raw.terminals raw.timeouts).length =
      raw.observations.length := by
    rw [computeDone_length u _ _ (by rw [hEt]; exact hEtm), hEt]
  have hr : raw.rewards.dropLast ≠ [] := by
    intro hnil
    have hl := congrArg List.length hnil
    rw [List.length_dropLast] at hl
    simp only [List.length_nil] at hl
    omega
  have hd : (computeDone u raw.terminals raw.timeouts).dropLast ≠ [] := by
    intro hnil
    have hl := congrArg List.length hnil
    rw [List.length_dropLast, hdlen] at hl
    simp only [List.length_nil] at hl
    omega
  have htm : raw.terminals.dropLast ≠ [] := by
    intro hnil
    have hl := congrArg List.length hnil
    rw [List.length_dropLast] at hl
    simp only [List.length_nil] at hl
    omega
  have htrc : ∀ tr, raw.timeouts.map List.dropLast = some tr → tr ≠ [] := by
    intro tr htr hnil
    cases htmo : raw.timeouts with
    | none => rw [htmo] at htr; simp at htr
    | some tl =>
      rw [htmo] at htr
      have heq : tl.dropLast = tr := by simpa using htr
      rw [htmo] at hEtm
      have hlen := optLenB_some _ _ hEtm
      have hl := congrArg List.length heq
      rw [List.length_dropLast, hnil] at hl
      simp only [List.length_nil] at hl
      omega
  exact checkedPipeline_eq _ _ (shiftRewardDoneChecked_some _ hr hd htm htrc)

theorem getDatasetDirectChecked_eq (u : Bool) (raw : RawQlearningData)
    (h1 : 1 ≤ raw.observations.length) (hQ : raw.wfB = true) :
    getDatasetDirectChecked u raw = some (getDatasetDirect u raw) := by
  obtain ⟨hQa, hQn, hQr, hQt, hQtm⟩ := rawQlearningData_wf_unpack raw hQ
  have hdlen : (computeDone u raw.terminals raw.timeouts).length =
      raw.observations.length := by
    rw [computeDone_length u _ _ (by rw [hQt]; exact hQtm), hQt]
  have hr : raw.rewards ≠ [] := by
    intro hnil
    have hl := congrArg List.length hnil
    simp only [List.length_nil] at hl
    omega
  have hd : computeDone u raw.terminals raw.timeouts ≠ [] := by
    intro hnil
    have hl := congrArg List.length hnil
    rw [hdlen] at hl
    simp only [List.length_nil] at hl
    omega
  have htm : raw.terminals ≠ [] := by
    intro hnil
    have hl := congrArg List.length hnil
    simp only [List.length_nil] at hl
    omega
  have htrc : ∀ tr, raw.timeouts = some tr → tr ≠ [] := by
    intro tr htr hnil
    rw [htr] at hQtm
    have hlen := optLenB_some _ _ hQtm
    rw [hnil] at hlen
    simp only [List.length_nil] at hlen
    omega
  exact checkedPipeline_eq _ _ (shiftRewardDoneChecked_some _ hr hd htm htrc)

/-- Claim C5 is false on the code at the boundary: with a one-row
derived-mode input the construction drops the only row, the shift's
row-0 write `dataset["reward"][0] = 0` (d4rl.py line 518) is out of
bounds on the resulting zero-row column, and the load aborts with an
`IndexError` — no finished table with `N - 1 = 0` rows is produced
(likewise for a zero-row pre-built input, which the claim also
covers). -/
theorem row_accounting_counterexample :
    exRawEnv1.observations.length = 1 ∧
    processDataFromEnvChecked true exRawEnv1 = none ∧
    getDatasetDirectChecked true exRawQ0 = none := by decide

/-- Claim C5 amended: derived-mode construction produces a finished
table with exactly `N - 1` rows in every column for every well-formed
raw input with `N ≥ 2` rows, and pre-built-mode construction produces
exactly `N` rows for every well-formed raw input with `N ≥ 1` rows; for
smaller inputs the shift's row-0 write is out of bounds, the load
aborts, and no table is produced (see the counterexample). -/
theorem row_accounting_amended (u : Bool) (rawE : RawEnvData)
    (rawQ : RawQlearningData) (n : Nat)
    (hn : rawE.observations.length = n) (h2 : 2 ≤ n)
    (hq : 1 ≤ rawQ.observations.length)
    (hE : rawE.wfB = true) (hQ : rawQ.wfB = true) :
    (finishedFromEnvChecked u rawE = some (finishedFromEnv u rawE) ∧
     (finishedFromEnv u rawE).observation.length = n - 1 ∧
     (finishedFromEnv u rawE).action.length = n - 1 ∧
     (finishedFromEnv u rawE).reward.length = n - 1 ∧
     (finishedFromEnv u rawE).done.length = n - 1 ∧
     (finishedFromEnv u rawE).terminated.length = n - 1 ∧
     (finishedFromEnv u rawE).next.observation.length = n - 1 ∧
     (finishedFromEnv u rawE).next.reward.length = n - 1 ∧
     (finishedFromEnv u rawE).next.done.length = n - 1) ∧
    (finishedDirectChecked u rawQ = some (finishedDirect u rawQ) ∧
     (finishedDirect u rawQ).observation.length = rawQ.observations.length ∧
     (finishedDirect u rawQ).action.length = rawQ.observations.length ∧
     (finishedDirect u rawQ).reward.length = rawQ.observations.length ∧
     (finishedDirect u rawQ).done.length = rawQ.observations.length ∧
     (finishedDirect u rawQ).terminated.length = rawQ.observations.length ∧
     (finishedDirect u rawQ).next.observation.length =
       rawQ.observations.length ∧
     (finishedDirect u rawQ).next.reward.length = rawQ.observations.length ∧
     (finishedDirect u rawQ).next.done.length =
       rawQ.observations.length) := by
  obtain ⟨hEa, hEr, hEt, hEtm, -⟩ := rawEnvData_wf_unpack rawE hE
  obtain ⟨hQa, hQn, hQr, hQt, hQtm⟩ := rawQlearningData_wf_unpack rawQ hQ
  have hEd : (computeDone u rawE.terminals rawE.timeouts).length = n := by
    rw [computeDone_length u _ _ (by rw [hEt]; exact hEtm), hEt, hn]
  have hQd : (computeDone u rawQ.terminals rawQ.timeouts).length =
      rawQ.observations.length := by
    rw [computeDone_length u _ _ (by rw [hQt]; exact hQtm), hQt]
  constructor
  · refine ⟨?_, ?_, ?_, ?_, ?_, ?_, ?_, ?_, ?_⟩
    · show (processDataFromEnvChecked u rawE).map
        (fun p => zeroDoneNextObs p.1) = some (finishedFromEnv u rawE)
      rw [processDataFromEnvChecked_eq u rawE (by omega) hE]
      rfl
    · rw [finishedFromEnv_observation, List.length_dropLast, hn]
    · rw [finishedFromEnv_action, List.length_dropLast, hEa, hn]
    · rw [finishedFromEnv_reward, shiftField_length, List.length_dropLast,
        hEr, hn]
    · rw [finishedFromEnv_done, shiftField_length, List.length_dropLast, hEd]
    · rw [finishedFromEnv_terminated, shiftField_length, List.length_dropLast,
        hEt, hn]
    · rw [finishedFromEnv_next_observation, List.length_zipWith,
        List.length_dropLast, List.length_drop, hEd, hn]
      omega
    · rw [finishedFromEnv_next_reward, List.length_dropLast, hEr, hn]
    · rw [finishedFromEnv_next_done, List.length_dropLast, hEd]
  · refine ⟨?_, rfl, hQa, ?_, ?_, ?_, ?_, hQr, hQd⟩
    · show (getDatasetDirectChecked u rawQ).map
        (fun p => zeroDoneNextObs p.1) = some (finishedDirect u rawQ)
      rw [getDatasetDirectChecked_eq u rawQ hq hQ]
      rfl
    · rw [finishedDirect_reward, shiftField_length, hQr]
    · rw [finishedDirect_done, shiftField_length, hQd]
    · rw [finishedDirect_terminated, shiftField_length, hQt]
    · rw [finishedDirect_next_observation, List.length_zipWith, hQd, hQn]
      omega

/-- Witness for the amended C5 at `exRawEnv` (4 raw rows) and `exRawQ`
(3 raw rows): both loads succeed, the finished derived-mode table has
3 rows and the finished pre-built-mode table has 3 rows. -/
theorem row_accounting_amended_witness :
    finishedFromEnvChecked true exRawEnv = some (finishedFromEnv true exRawEnv) ∧
    (finishedFromEnv true exRawEnv).observation.length = 3 ∧
    finishedDirectChecked true exRawQ = some (finishedDirect true exRawQ) ∧
    (finishedDirect true exRawQ).observation.length =
      exRawQ.observations.length := by
  have h := row_accounting_amended true exRawEnv exRawQ 4 (by decide)
    (by decide) (by decide) (by decide) (by decide)
  exact ⟨h.1.1, h.1.2.1, h.2.1, h.2.2.1⟩

/-- Claim C6: the embedded `done` derivation shared by both construction
paths satisfies, at every row `t`: with the truncation-counted policy,
`done[t] = terminated[t] || truncated[t]` where `truncated[t]` is read
as `false` when the raw source has no timeouts column; with the other
policy, `done[t] = terminated[t]`. -/
theorem done_derivation (term : List Bool) (trunc : Option (List Bool))
    (t : Nat) (hlen : optLenB trunc term.length = true) :
    (computeDone true term trunc).getD t false =
      (term.getD t false ||
        (match trunc with
         | some tr => tr.getD t false
         | none => false)) ∧
    (computeDone false term trunc).getD t false = term.getD t false := by
  refine ⟨?_, by simp [computeDone]⟩
  cases trunc with
  | none => simp [computeDone]
  | some tr =>
    show (List.zipWith (fun a b => a || b) term tr).getD t false =
      (term.getD t false || tr.getD t false)
    exact zipWith_or_getD _ _ _ (optLenB_some _ _ hlen)

/-- Witness for C6 at `terminated = [false, true]`,
`truncated = [true, false]` and row `t = 0`: the truncation-counted
policy yields `done[0] = false || true`. -/
theorem done_derivation_witness :
    (computeDone true [false, true] (some [true, false])).getD 0 false =
      ([false, true].getD 0 false || [true, false].getD 0 false) :=
  (done_derivation [false, true] (some [true, false]) 0 (by decide)).1

/-- Claim C10: on the finished (unsplit) table of both provenance paths,
the top-level `reward`, `done`, `terminated` and `truncated` columns are
the one-position-down shift of the corresponding `next.*` columns: for
every row `t ≥ 1`, `reward[t] = next.reward[t - 1]` (likewise for the
flag columns, `truncated` when present), row 0 holds the identity values
(`0`, `false`), and `next.reward[t]` is the raw pre-shift reward of
row `t`. -/
theorem top_fields_are_shifted_next (u : Bool) (rawE : RawEnvData)
    (rawQ : RawQlearningData) (t : Nat) (ht : 1 ≤ t) :
    ((t < (finishedFromEnv u rawE).reward.length →
       (finishedFromEnv u rawE).reward.getD t 0 =
         (finishedFromEnv u rawE).next.reward.getD (t - 1) 0 ∧
       (finishedFromEnv u rawE).next.reward.getD t 0 =
         rawE.rewards.getD t 0) ∧
     (t < (finishedFromEnv u rawE).done.length →
       (finishedFromEnv u rawE).done.getD t false =
         (finishedFromEnv u rawE).next.done.getD (t - 1) false) ∧
     (t < (finishedFromEnv u rawE).terminated.length →
       (finishedFromEnv u rawE).terminated.getD t false =
         (finishedFromEnv u rawE).next.terminated.getD (t - 1) false) ∧
     (∀ tr ntr, (finishedFromEnv u rawE).truncated = some tr →
       (finishedFromEnv u rawE).next.truncated = some ntr →
       (t < tr.length → tr.getD t false = ntr.getD (t - 1) false) ∧
       (tr ≠ [] → tr.getD 0 false = false)) ∧
     ((finishedFromEnv u rawE).reward ≠ [] →
       (finishedFromEnv u rawE).reward.getD 0 0 = 0) ∧
     ((finishedFromEnv u rawE).done ≠ [] →
       (finishedFromEnv u rawE).done.getD 0 false = false) ∧
     ((finishedFromEnv u rawE).terminated ≠ [] →
       (finishedFromEnv u rawE).terminated.getD 0 false = false)) ∧
    ((t < (finishedDirect u rawQ).reward.length →
       (finishedDirect u rawQ).reward.getD t 0 =
         (finishedDirect u rawQ).next.reward.getD (t - 1) 0 ∧
       (finishedDirect u rawQ).next.reward.getD t 0 =
         rawQ.rewards.getD t 0) ∧
     (t < (finishedDirect u rawQ).done.length →
       (finishedDirect u rawQ).done.getD t false =
         (finishedDirect u rawQ).next.done.getD (t - 1) false) ∧
     (t < (finishedDirect u rawQ).terminated.length →
       (finishedDirect u rawQ).terminated.getD t false =
         (finishedDirect u rawQ).next.terminated.getD (t - 1) false) ∧
     (∀ tr ntr, (finishedDirect u rawQ).truncated = some tr →
       (finishedDirect u rawQ).next.truncated = some ntr →
       (t < tr.length → tr.getD t false = ntr.getD (t - 1) false) ∧
       (tr ≠ [] → tr.getD 0 false = false)) ∧
     ((finishedDirect u rawQ).reward ≠ [] →
       (finishedDirect u rawQ).reward.getD 0 0 = 0) ∧
     ((finishedDirect u rawQ).done ≠ [] →
       (finishedDirect u rawQ).done.getD 0 false = false) ∧
     ((finishedDirect u rawQ).terminated ≠ [] →
       (finishedDirect u rawQ).terminated.getD 0 false = false)) := by
  constructor
  · refine ⟨fun h => ⟨?_, ?_⟩, fun h => ?_, fun h => ?_,
      fun tr ntr htr hntr => ?_, fun h => ?_, fun h => ?_, fun h => ?_⟩
    · rw [finishedFromEnv_reward, shiftField_length] at h
      rw [finishedFromEnv_reward, finishedFromEnv_next_reward]
      exact shiftField_getD_succ _ _ _ _ ht h
    · rw [finishedFromEnv_reward, shiftField_length] at h
      rw [finishedFromEnv_next_reward,
        getD_dropLast _ _ _ (by rw [List.length_dropLast] at h; omega)]
    · rw [finishedFromEnv_done, shiftField_length] at h
      rw [finishedFromEnv_done, finishedFromEnv_next_done]
      exact shiftField_getD_succ _ _ _ _ ht h
    · rw [finishedFromEnv_terminated, shiftField_length] at h
      rw [finishedFromEnv_terminated, finishedFromEnv_next_terminated]
      exact shiftField_getD_succ _ _ _ _ ht h
    · rw [finishedFromEnv_truncated] at htr
      rw [finishedFromEnv_next_truncated] at hntr
      cases htm : rawE.timeouts with
      | none => rw [htm] at htr; exact absurd htr (by simp)
      | some tl =>
        rw [htm] at htr hntr
        have htr' : shiftField false tl.dropLast = tr := by simpa using htr
        have hntr' : tl.dropLast = ntr := by simpa using hntr
        subst htr'; subst hntr'
        refine ⟨fun h => ?_, fun h => ?_⟩
        · rw [shiftField_length] at h
          exact shiftField_getD_succ _ _ _ _ ht h
        · exact shiftField_getD_zero _ _ _ (ne_nil_of_shiftField_ne_nil h)
    · rw [finishedFromEnv_reward] at h ⊢
      exact shiftField_getD_zero _ _ _ (ne_nil_of_shiftField_ne_nil h)
    · rw [finishedFromEnv_done] at h ⊢
      exact shiftField_getD_zero _ _ _ (ne_nil_of_shiftField_ne_nil h)
    · rw [finishedFromEnv_terminated] at h ⊢
      exact shiftField_getD_zero _ _ _ (ne_nil_of_shiftField_ne_nil h)
  · refine ⟨fun h => ⟨?_, ?_⟩, fun h => ?_, fun h => ?_,
      fun tr ntr htr hntr => ?_, fun h => ?_, fun h => ?_, fun h => ?_⟩
    · rw [finishedDirect_reward, shiftField_length] at h
      rw [finishedDirect_reward, finishedDirect_next_reward]
      exact shiftField_getD_succ _ _ _ _ ht h
    · rw [finishedDirect_next_reward]
    · rw [finishedDirect_done, shiftField_length] at h
      rw [finishedDirect_done, finishedDirect_next_done]
      exact shiftField_getD_succ _ _ _ _ ht h
    · rw [finishedDirect_terminated, shiftField_length] at h
      rw [finishedDirect_terminated, finishedDirect_next_terminated]
      exact shiftField_getD_succ _ _ _ _ ht h
    · rw [finishedDirect_truncated] at htr
      rw [finishedDirect_next_truncated] at hntr
      cases htm : rawQ.timeouts with
      | none => rw [htm] at htr; exact absurd htr (by simp)
      | some tl =>
        rw [htm] at htr hntr
        have htr' : shiftField false tl = tr := by simpa using htr
        have hntr' : tl = ntr := by simpa using hntr
        subst htr'; subst hntr'
        refine ⟨fun h => ?_, fun h => ?_⟩
        · rw [shiftField_length] at h
          exact shiftField_getD_succ _ _ _ _ ht h
        · exact shiftField_getD_zero _ _ _ (ne_nil_of_shiftField_ne_nil h)
    · rw [finishedDirect_reward] at h ⊢
      exact shiftField_getD_zero _ _ _ (ne_nil_of_shiftField_ne_nil h)
    · rw [finishedDirect_done] at h ⊢
      exact shiftField_getD_zero _ _ _ (ne_nil_of_shiftField_ne_nil h)
    · rw [finishedDirect_terminated] at h ⊢
      exact shiftField_getD_zero _ _ _ (ne_nil_of_shiftField_ne_nil h)

/-- Witness for C10 at `exRawEnv`, `exRawQ` and row `t = 1`:
`reward[1] = next.reward[0]` and `next.reward[1]` is the raw reward of
row 1, in both modes. -/
theorem top_fields_are_shifted_next_witness :
    ((finishedFromEnv true exRawEnv).reward.getD 1 0 =
       (finishedFromEnv true exRawEnv).next.reward.getD 0 0 ∧
     (finishedFromEnv true exRawEnv).next.reward.getD 1 0 =
       exRawEnv.rewards.getD 1 0) ∧
    ((finishedDirect true exRawQ).reward.getD 1 0 =
       (finishedDirect true exRawQ).next.reward.getD 0 0 ∧
     (finishedDirect true exRawQ).next.reward.getD 1 0 =
       exRawQ.rewards.getD 1 0) := by
  have h := top_fields_are_shifted_next true exRawEnv exRawQ 1 (by decide)
  exact ⟨h.1.1 (by decide), h.2.1 (by decide)⟩

/-! ### Helper lemmas about trajectory splitting -/

theorem getD_eq_default {α : Type} (l : List α) (i : Nat) (d : α)
    (h : l.length ≤ i) : l.getD i d = d := by
  rw [List.getD_eq_getElem?_getD, List.getElem?_eq_none_iff.mpr h]; rfl

theorem getD_map {α β : Type} (f : α → β) (l : List α) (i : Nat)
    (d : β) (dd : α) (h : i < l.length) :
    (l.map f).getD i d = f (l.getD i dd) := by
  rw [List.getD_eq_getElem?_getD, List.getElem?_map,
    List.getElem?_eq_getElem h, List.getD_eq_getElem?_getD,
    List.getElem?_eq_getElem h]
  rfl

theorem getD_mem {α : Type} (l : List α) (i : Nat) (d : α)
    (h : i < l.length) : l.getD i d ∈ l := by
  rw [List.getD_eq_getElem?_getD, List.getElem?_eq_getElem h]
  exact List.getElem_mem h

theorem getD_of_getLast?_true (ys : List Bool) (h : ys.getLast? = some true) :
    ys.getD (ys.length - 1) false = true := by
  rw [List.getD_eq_getElem?_getD, ← List.getLast?_eq_getElem?, h]
  rfl

theorem ne_nil_of_getLast?_true (ys : List Bool)
    (h : ys.getLast? = some true) : ys ≠ [] := by
  intro hy; subst hy; simp at h

theorem le_foldr_max (l : List Nat) (x : Nat) (hx : x ∈ l) :
    x ≤ l.foldr Nat.max 0 := by
  induction l with
  | nil => cases hx
  | cons a l ih =>
    rcases List.mem_cons.mp hx with h | h
    · subst h; exact Nat.le_max_left _ _
    · exact Nat.le_trans (ih h) (Nat.le_max_right _ _)

theorem padTo_length {α : Type} (pad : α) (m : Nat) (xs : List α)
    (h : xs.length ≤ m) : (padTo pad m xs).length = m := by
  simp only [padTo, List.length_append, List.length_replicate]
  omega

theorem padTo_getD {α : Type} (pad d : α) (m : Nat) (xs : List α) (t : Nat)
    (h : t < xs.length) : (padTo pad m xs).getD t d = xs.getD t d := by
  rw [padTo, List.getD_eq_getElem?_getD, List.getElem?_append, if_pos h,
    List.getD_eq_getElem?_getD]

theorem setLastTrue_length (ys : List Bool) :
    (setLastTrue ys).length = ys.length := by
  cases ys with
  | nil => rfl
  | cons a l =>
    show ((a :: l).dropLast ++ [true]).length = (a :: l).length
    simp only [List.length_append, List.length_dropLast, List.length_cons,
      List.length_nil]
    omega

theorem setLastTrue_getD_last (ys : List Bool) (h : ys ≠ []) :
    (setLastTrue ys).getD (ys.length - 1) false = true := by
  cases ys with
  | nil => exact absurd rfl h
  | cons a l =>
    show ((a :: l).dropLast ++ [true]).getD ((a :: l).length - 1) false = true
    rw [List.getD_eq_getElem?_getD, List.getElem?_append,
      if_neg (by simp)]
    simp

theorem setLastTrue_getD_lt (ys : List Bool) (t : Nat)
    (h : t + 1 < ys.length) :
    (setLastTrue ys).getD t false = ys.getD t false := by
  cases ys with
  | nil => simp at h
  | cons a l =>
    show ((a :: l).dropLast ++ [true]).getD t false = (a :: l).getD t false
    rw [List.getD_eq_getElem?_getD, List.getElem?_append,
      if_pos (by
        simp only [List.length_dropLast, List.length_cons] at h ⊢
        omega),
      ← List.getD_eq_getElem?_getD]
    exact getD_dropLast _ _ _ h

theorem splitRunsAux_getLast (xs : List Bool) :
    ∀ acc : List Bool, ∀ i : Nat, i + 1 < (splitRunsAux xs acc).length →
      ((splitRunsAux xs acc).getD i []).getLast? = some true := by
  induction xs with
  | nil =>
    intro acc i h
    by_cases ha : acc.isEmpty <;>
      simp only [splitRunsAux, ha, if_true, if_false] at h <;>
      simp at h
  | cons b rest ih =>
    intro acc i h
    cases b with
    | true =>
      cases i with
      | zero =>
        show (((acc.reverse ++ [true]) :: splitRunsAux rest []).getD 0
          []).getLast? = some true
        rw [List.getD_cons_zero, List.getLast?_concat]
      | succ k =>
        have h' : k + 1 < (splitRunsAux rest []).length := by
          simp only [splitRunsAux, List.length_cons] at h
          omega
        show (((acc.reverse ++ [true]) :: splitRunsAux rest []).getD (k + 1)
          []).getLast? = some true
        rw [List.getD_cons_succ]
        exact ih [] k h'
    | false =>
      have h' : i + 1 < (splitRunsAux rest (false :: acc)).length := h
      exact ih (false :: acc) i h'

/-- Claim C7 is false on the code: d4rl.py line 331 sets `next.done` to
`true` at the final padded time-column (`[:, -1]`) of every episode, not
at each episode's final valid time-step.  On the flat column
`next.done = [false, true, false]` the trailing episode has valid
length 1, yet after splitting its final valid time-step (position 0)
still carries `next.done = false` — only its padding position was set. -/
theorem split_boundary_counterexample :
    ((splitRuns [false, true, false]).getD 1 []).length = 1 ∧
    ((splitNextDone [false, true, false]).getD 1 []).getD 0 false =
      false := by decide

theorem setLastTrue_padTo_getD (r : List Bool) (m : Nat)
    (hle : r.length <= m) (h : r.getLast? = some true) :
    (setLastTrue (padTo false m r)).getD (r.length - 1) false = true := by
  have hr_ne : r ≠ [] := ne_nil_of_getLast?_true r h
  have h1 : 1 ≤ r.length := by
    cases r with
    | nil => exact absurd rfl hr_ne
    | cons a l => simp
  have hpl : (padTo false m r).length = m := padTo_length _ _ _ hle
  rcases Nat.lt_or_ge r.length m with hlt | hge
  · rw [setLastTrue_getD_lt _ _ (by omega), padTo_getD _ _ _ _ _ (by omega)]
    exact getD_of_getLast?_true r h
  · have hrm : r.length = m := Nat.le_antisymm hle hge
    have hpne : padTo false m r ≠ [] := by
      intro hp
      have h0 : (padTo false m r).length = 0 := by rw [hp]; rfl
      omega
    have hlast := setLastTrue_getD_last (padTo false m r) hpne
    rw [hpl] at hlast
    rw [hrm]
    exact hlast

/-- Claim C7 amended: after trajectory splitting, the final padded
time-column of every episode has `next.done = true`; every episode other
than the trailing one ends at a `true` boundary of the flat `next.done`
column, and every episode whose run ends with `true` keeps
`next.done = true` at its final valid time-step.  (A trailing episode
with no `true` boundary and shorter than the maximum episode length,
as in the counterexample, keeps `next.done = false` there.) -/
theorem split_boundary_amended (nextDone : List Bool) (i : Nat) :
    (∀ ep ∈ splitNextDone nextDone, ep ≠ [] →
      ep.getD (ep.length - 1) false = true) ∧
    (i + 1 < (splitRuns nextDone).length →
      ((splitRuns nextDone).getD i []).getLast? = some true) ∧
    (((splitRuns nextDone).getD i []).getLast? = some true →
      ((splitNextDone nextDone).getD i []).getD
        (((splitRuns nextDone).getD i []).length - 1) false = true) := by
  refine ⟨?_, fun h => splitRunsAux_getLast nextDone [] i h, fun h => ?_⟩
  · intro ep hep hne
    have hsplit : splitNextDone nextDone =
        ((splitRuns nextDone).map
          (padTo false
            (((splitRuns nextDone).map List.length).foldr Nat.max 0))).map
          setLastTrue := rfl
    rw [hsplit] at hep
    obtain ⟨ys, -, hys⟩ := List.mem_map.mp hep
    subst hys
    have hys_ne : ys ≠ [] := by
      intro hy; subst hy; exact hne rfl
    rw [setLastTrue_length]
    exact setLastTrue_getD_last ys hys_ne
  · have hi : i < (splitRuns nextDone).length := by
      by_contra hge
      rw [getD_eq_default _ _ _ (by omega)] at h
      simp at h
    have hepi : (splitNextDone nextDone).getD i [] =
        setLastTrue (padTo false
          (((splitRuns nextDone).map List.length).foldr Nat.max 0)
          ((splitRuns nextDone).getD i [])) := by
      show (((splitRuns nextDone).map
          (padTo false
            (((splitRuns nextDone).map List.length).foldr Nat.max 0))).map
          setLastTrue).getD i [] = _
      rw [getD_map setLastTrue _ _ _ []
          (by rw [List.length_map]; exact hi),
        getD_map _ _ _ _ [] hi]
    rw [hepi]
    exact setLastTrue_padTo_getD _ _
      (le_foldr_max _ _ (List.mem_map.mpr ⟨_, getD_mem _ _ _ hi, rfl⟩)) h

/-- Witness for the amended C7 on the flat column `[false, true, false]`,
episode 0 (which ends at the `true` boundary): its final valid time-step
(position 1) has `next.done = true` after splitting. -/
theorem split_boundary_amended_witness :
    ((splitNextDone [false, true, false]).getD 0 []).getD
      (((splitRuns [false, true, false]).getD 0 []).length - 1)
      false = true :=
  (split_boundary_amended [false, true, false] 0).2.2 (by decide)

theorem find?_key_eq_none {β : Type} (l : List (String × β)) (name : String)
    (h : (l.map Prod.fst).contains name = false) :
    l.find? (fun p => p.1 == name) = none := by
  rw [List.find?_eq_none]
  intro p hp hbeq
  have hmem : name ∈ l.map Prod.fst :=
    List.mem_map.mpr ⟨p, hp, eq_of_beq hbeq⟩
  rw [← List.elem_iff] at hmem
  have h' : List.elem name (l.map Prod.fst) = false := h
  rw [h'] at hmem
  cases hmem

theorem find?_key_isSome {β : Type} (l : List (String × β)) (name : String)
    (h : (l.map Prod.fst).contains name = true) :
    (l.find? (fun p => p.1 == name)).isSome = true := by
  rw [List.find?_isSome]
  obtain ⟨p, hp, hfst⟩ := List.mem_map.mp (List.elem_iff.mp h)
  exact ⟨p, hp, by rw [hfst]; simp⟩

/-- Claim C9: in the direct-download path, a dataset name with no entry
in the known archive-source table makes the load abort with the
unknown-dataset error before any table is produced, while every name
that has an entry resolves to its URL and never triggers that error. -/
theorem unknown_dataset_fatal (name : String) :
    ((D4RL_DATASETS.map Prod.fst).contains name = false →
      getDatasetDirectDownload true name =
        Except.error (LoadError.unknownDataset name)) ∧
    ((D4RL_DATASETS.map Prod.fst).contains name = true →
      ∃ url, getDatasetDirectDownload true name = Except.ok url) := by
  constructor
  · intro h
    show (match lookupDataset name with
      | none => Except.error (LoadError.unknownDataset name)
      | some url => Except.ok url) =
      Except.error (LoadError.unknownDataset name)
    rw [show lookupDataset name = none by
      rw [lookupDataset, find?_key_eq_none _ _ h]; rfl]
  · intro h
    have hs := find?_key_isSome D4RL_DATASETS name h
    obtain ⟨p, hp⟩ := Option.isSome_iff_exists.mp hs
    refine ⟨p.2, ?_⟩
    show (match lookupDataset name with
      | none => Except.error (LoadError.unknownDataset name)
      | some url => Except.ok url) = Except.ok p.2
    rw [show lookupDataset name = some p.2 by rw [lookupDataset, hp]; rfl]

/-- Witness for C9: the unlisted name aborts with the unknown-dataset
error; the listed name `"maze2d-open-v0"` resolves to a URL. -/
theorem unknown_dataset_fatal_witness :
    getDatasetDirectDownload true "no-such-dataset-v0" =
      Except.error (LoadError.unknownDataset "no-such-dataset-v0") ∧
    ∃ url, getDatasetDirectDownload true "maze2d-open-v0" = Except.ok url :=
  ⟨(unknown_dataset_fatal "no-such-dataset-v0").1 (by decide),
   (unknown_dataset_fatal "maze2d-open-v0").2 (by decide)⟩

end D4RL

